import Mathlib

/-!
# Verification of the dashpay/regtest-blockchain generation engine

Shallow embedding, in Lean 4, of the parts of the repository that the
claims C1–C10 concern:

* `generate.py` — the phased generation engine (`Generator`,
  `WalletSyncGenerator`), in particular the batch-boundary scheduler
  `_calculate_batch_boundaries` and the bulk-generation loop
  `_phase_bulk_generation`;
* `generator/dashd_manager.py` — the `DashdManager` process lifecycle
  manager (`start`, `stop`, `_wait_for_ready`);
* `generator/wallet_export.py` — `collect_wallet_stats`.

Python integers are modelled as `Nat` (all quantities involved are
non-negative heights, counts and indices; where Python subtraction could
go below zero the surrounding guards make truncated subtraction agree
with the Python value, which is noted at each definition).  Monetary
amounts (Python floats) are modelled as `ℚ`.  RPC calls are modelled by
their success-path semantics, with explicit oracle parameters where the
code consults the node or the random number generator; exceptions are
modelled with `Except`.  Externally visible behaviour (sends, mining,
schedule removals) is recorded in an explicit event trace.
-/

namespace RegtestGen

/-- Python `range(start, stop, step)` for a positive `step`:
the list `[start, start + step, ...]` of all values below `stop`. -/
def pyRange (start stop step : Nat) : List Nat :=
  List.range' start ((stop - start + step - 1) / step) step

/-- Embedding of `WalletSyncGenerator._calculate_batch_boundaries`
(`generate.py`): boundaries are at every 5000 blocks; a transaction is
placed just before each boundary (at `boundary - 1`), keeping only
heights strictly between `current_height` and `target`. -/
def calculate_batch_boundaries (current_height target : Nat) : List Nat :=
  let first_boundary := (current_height / 5000 + 1) * 5000
  (pyRange first_boundary (target + 1) 5000).filterMap (fun boundary =>
    let height := boundary - 1
    if current_height < height ∧ height < target then some height else none)

/-- A height is returned by the scheduler exactly when it lies strictly
between the current and target heights and is one below a multiple of
5000. -/
theorem mem_calculate_batch_boundaries {c t x : Nat} :
    x ∈ calculate_batch_boundaries c t ↔ c < x ∧ x < t ∧ x % 5000 = 4999 := by
  unfold calculate_batch_boundaries pyRange
  simp only [List.mem_filterMap, List.mem_range']
  constructor
  · rintro ⟨b, ⟨i, hi, rfl⟩, hb⟩
    split at hb
    · rename_i hcond
      have hx := Option.some.inj hb
      omega
    · exact absurd hb (by simp)
  · rintro ⟨hc, ht, hm⟩
    refine ⟨5000 * ((x + 1) / 5000), ⟨(x + 1) / 5000 - c / 5000 - 1, by omega, by omega⟩, ?_⟩
    rw [if_pos (by omega)]
    exact congrArg some (by omega)

/-- Closed form of the scheduler: the returned list is the arithmetic
progression of all heights `5000 * k + 4999` with
`(c + 1) / 5000 ≤ k < t / 5000`. -/
theorem calculate_batch_boundaries_eq (c t : Nat) :
    calculate_batch_boundaries c t =
      (List.range' ((c + 1) / 5000) (t / 5000 - (c + 1) / 5000)).map
        (fun k => 5000 * k + 4999) := by
  haveI : IsAntisymm Nat (· < ·) := ⟨fun _ _ h1 h2 => absurd h2 (Nat.lt_asymm h1)⟩
  have hs1 : (calculate_batch_boundaries c t).Pairwise (· < ·) := by
    unfold calculate_batch_boundaries pyRange
    refine (List.pairwise_lt_range' _ _ 5000 (by norm_num)).filterMap _ ?_
    intro a a' hlt b hb b' hb'
    simp only [Option.mem_def] at hb hb'
    split at hb
    · split at hb'
      · have h1 := Option.some.inj hb
        have h2 := Option.some.inj hb'
        rename_i hc1 hc2
        omega
      · exact absurd hb' (by simp)
    · exact absurd hb (by simp)
  have hs2 : ((List.range' ((c + 1) / 5000) (t / 5000 - (c + 1) / 5000)).map
      (fun k => 5000 * k + 4999)).Pairwise (· < ·) := by
    refine (List.pairwise_lt_range' _ _).map _ ?_
    intro a b hab
    omega
  refine List.eq_of_perm_of_sorted ?_ hs1 hs2
  refine (List.perm_ext_iff_of_nodup hs1.nodup hs2.nodup).mpr ?_
  intro x
  rw [mem_calculate_batch_boundaries]
  simp only [List.mem_map, List.mem_range'_1]
  constructor
  · rintro ⟨hc, ht, hm⟩
    exact ⟨(x + 1) / 5000 - 1, by omega, by omega⟩
  · rintro ⟨k, hk, rfl⟩
    omega

/-- Consecutive elements of the mapped arithmetic progression differ by
exactly 5000. -/
theorem chain'_map_range'_spacing (s n : Nat) :
    ((List.range' s n).map (fun k => 5000 * k + 4999)).Chain'
      (fun a b => b = a + 5000) := by
  rw [List.chain'_iff_get]
  intro i h
  simp only [List.get_eq_getElem, List.getElem_map, List.getElem_range']
  omega

/-- C1: for `target > current` the boundary scheduler returns a strictly
increasing sequence; every returned height `h` satisfies
`current < h < target`; each returned height is one less than a multiple
of 5000; consecutive returned heights differ by exactly 5000; and the
result is empty when the open interval contains no height of the form
(multiple of 5000) − 1. -/
theorem c1_batch_boundaries_spec (current target : Nat) (h : current < target) :
    (calculate_batch_boundaries current target).Pairwise (· < ·) ∧
    (∀ x ∈ calculate_batch_boundaries current target, current < x ∧ x < target) ∧
    (∀ x ∈ calculate_batch_boundaries current target, ∃ m, 0 < m ∧ x = 5000 * m - 1) ∧
    (calculate_batch_boundaries current target).Chain' (fun a b => b = a + 5000) ∧
    ((∀ x, current < x → x < target → ¬ ∃ m, 0 < m ∧ x = 5000 * m - 1) →
      calculate_batch_boundaries current target = []) := by
  refine ⟨?_, ?_, ?_, ?_, ?_⟩
  · rw [calculate_batch_boundaries_eq]
    refine (List.pairwise_lt_range' _ _).map _ ?_
    intro a b hab
    omega
  · intro x hx
    have := mem_calculate_batch_boundaries.mp hx
    exact ⟨this.1, this.2.1⟩
  · intro x hx
    have := mem_calculate_batch_boundaries.mp hx
    exact ⟨x / 5000 + 1, by omega, by omega⟩
  · rw [calculate_batch_boundaries_eq]
    exact chain'_map_range'_spacing _ _
  · intro hnone
    rw [List.eq_nil_iff_forall_not_mem]
    intro x hx
    have hm := mem_calculate_batch_boundaries.mp hx
    exact hnone x hm.1 hm.2.1 ⟨x / 5000 + 1, by omega, by omega⟩

/-- Witness for C1 at the concrete pair (200, 40000). -/
theorem c1_batch_boundaries_spec_witness :
    (calculate_batch_boundaries 200 40000).Pairwise (· < ·) ∧
    (∀ x ∈ calculate_batch_boundaries 200 40000, 200 < x ∧ x < 40000) ∧
    (∀ x ∈ calculate_batch_boundaries 200 40000, ∃ m, 0 < m ∧ x = 5000 * m - 1) ∧
    (calculate_batch_boundaries 200 40000).Chain' (fun a b => b = a + 5000) ∧
    ((∀ x, 200 < x → x < 40000 → ¬ ∃ m, 0 < m ∧ x = 5000 * m - 1) →
      calculate_batch_boundaries 200 40000 = []) :=
  c1_batch_boundaries_spec 200 40000 (by decide)

/-- C2: the scheduler returns exactly the spec's worked examples:
`(200, 40000)` gives 8 values from 4999 to 39999; `(200, 10000)` gives
`[4999, 9999]`; `(200, 1000)` gives the empty list; and `(5000, 15000)`
gives `[9999, 14999]`. -/
theorem c2_worked_examples :
    (calculate_batch_boundaries 200 40000).length = 8 ∧
    (calculate_batch_boundaries 200 40000).head? = some 4999 ∧
    (calculate_batch_boundaries 200 40000).getLast? = some 39999 ∧
    calculate_batch_boundaries 200 10000 = [4999, 9999] ∧
    calculate_batch_boundaries 200 1000 = [] ∧
    calculate_batch_boundaries 5000 15000 = [9999, 14999] := by
  refine ⟨?_, ?_, ?_, ?_, ?_, ?_⟩ <;> decide

/-! ## Process lifecycle manager (`generator/dashd_manager.py`)

The OS interactions (filesystem checks, port probing, `mkdtemp`,
`Popen`, RPC liveness) are abstracted by oracle parameters; the actions
the manager performs against the OS are recorded in an explicit list so
that "performs no cleanup", "allocates no port" and similar statements
can be made. -/

/-- The exception classes used by the repository.  `generator/errors.py`
itself is not part of the sources here; the constructor set is modelled
from the spec's error taxonomy and from the names imported throughout
`generate.py` and `generator/dashd_manager.py`. -/
inductive PyError where
  | configError (msg : String)
  | dashdConnectionError (msg : String)
  | insufficientFundsError (msg : String)
  | generatorError (msg : String)
  | rpcError (msg : String)
deriving DecidableEq

/-- Mutable attributes of a `DashdManager` instance. -/
structure DashdManagerState where
  dashd_executable : String
  requested_port : Option Nat
  extra_args : List String
  actual_port : Option Nat
  p2p_port : Option Nat
  temp_dir : Option String
  process : Option Nat
  should_cleanup : Bool
deriving DecidableEq

/-- `DashdManager.__init__`. -/
def DashdManagerState.init (exe : String) (rpc_port : Option Nat)
    (extra : List String) : DashdManagerState :=
  { dashd_executable := exe, requested_port := rpc_port, extra_args := extra,
    actual_port := none, p2p_port := none, temp_dir := none, process := none,
    should_cleanup := true }

/-- Externally observable OS actions of the lifecycle manager. -/
inductive MgrAction where
  | terminateProc (pid : Nat)
  | waitProc (pid : Nat)
  | killProc (pid : Nat)
  | removeDir (d : String)
  | allocPort (p : Nat)
  | makeTempDir (d : String)
  | makeRegtestSubdir (d : String)
  | launchProcess (pid : Nat)
  | registerAtexit
deriving DecidableEq

/-- `DashdManager.stop`: when a process handle is held, terminate it
(gracefully when the 10s wait succeeds — decided by the `graceful`
oracle — else force-kill) and clear the handle; then delete the
temporary directory when one is recorded and cleanup is enabled, and
clear the reference.  Returns the new state and the emitted actions. -/
def DashdManagerState.stop (graceful : Bool) (st : DashdManagerState) :
    DashdManagerState × List MgrAction :=
  let s1 : DashdManagerState × List MgrAction :=
    match st.process with
    | some pid =>
        ({ st with process := none },
          if graceful then [MgrAction.terminateProc pid, MgrAction.waitProc pid]
          else [MgrAction.terminateProc pid, MgrAction.waitProc pid,
                MgrAction.killProc pid, MgrAction.waitProc pid])
    | none => (st, [])
  match s1.1.temp_dir, s1.1.should_cleanup with
  | some d, true => ({ s1.1 with temp_dir := none }, s1.2 ++ [MgrAction.removeDir d])
  | _, _ => s1

/-- `DashdManager.find_free_port`: the first port in
`[start_port, start_port + max_attempts)` that the probe bind reports
free; `none` models the `DashdConnectionError` raised when all
candidates are taken. -/
def find_free_port (portFree : Nat → Bool) (start_port max_attempts : Nat) : Option Nat :=
  (List.range' start_port max_attempts).find? portFree

/-- Result of the readiness poll `DashdManager._wait_for_ready`: the
Boolean the Python function returns, the number of poll iterations it
performed, and the stderr text printed when the process was observed
dead. -/
structure WaitResult where
  ready : Bool
  iterations : Nat
  printedStderr : Option String
deriving DecidableEq

/-- One poll slot of `_wait_for_ready`.  `budget` counts the remaining
0.5s sleep slots of the timeout (the `time.time() - start_time < timeout`
check); each iteration first re-checks process liveness (`dead i`),
printing the captured stderr and returning `False` when the process has
exited, and only then attempts the RPC liveness call (`rpcReady i`). -/
def waitForReadyGo (dead rpcReady : Nat → Bool) (stderrText : String) :
    Nat → Nat → WaitResult
  | 0, i => { ready := false, iterations := i, printedStderr := none }
  | budget + 1, i =>
    if dead i then
      { ready := false, iterations := i + 1, printedStderr := some stderrText }
    else if rpcReady i then
      { ready := true, iterations := i + 1, printedStderr := none }
    else
      waitForReadyGo dead rpcReady stderrText budget (i + 1)

/-- `DashdManager._wait_for_ready` with its `timeout` in seconds
(polling every 0.5s gives `2 * timeout` slots). -/
def waitForReady (dead rpcReady : Nat → Bool) (stderrText : String)
    (timeout : Nat) : WaitResult :=
  waitForReadyGo dead rpcReady stderrText (2 * timeout) 0

/-- Outcome of `DashdManager.start`: the returned `(rpc_port, temp_dir)`
pair or the raised error, the manager state afterwards, and the OS
actions performed. -/
structure StartResult where
  outcome : Except PyError (Nat × String)
  state : DashdManagerState
  actions : List MgrAction

/-- Continuation of `DashdManager.start` after the control port `ap` has
been resolved: resolve the P2P port, create the temporary directory and
its `regtest` subdirectory, launch the process, register the atexit
hook, and poll for readiness; on a failed poll, call `stop` and raise
the generic startup error. -/
def startWithPort (portFree : Nat → Bool) (tempDirName : String) (pid : Nat)
    (launchOk : Bool) (dead rpcReady : Nat → Bool) (stderrText : String)
    (graceful keep_temp : Bool) (ap : Nat) (st : DashdManagerState) : StartResult :=
  let st1 := { st with actual_port := some ap }
  match find_free_port portFree (ap + 1) 20 with
  | none =>
    { outcome := Except.error (PyError.dashdConnectionError
        ("No free RPC port found in range " ++ toString (ap + 1) ++ "-" ++ toString (ap + 20))),
      state := st1, actions := [MgrAction.allocPort ap] }
  | some pp =>
    let st2 := { st1 with p2p_port := some pp, temp_dir := some tempDirName,
                          should_cleanup := !keep_temp }
    let acts := [MgrAction.allocPort ap, MgrAction.allocPort pp,
                 MgrAction.makeTempDir tempDirName, MgrAction.makeRegtestSubdir tempDirName]
    if launchOk = false then
      { outcome := Except.error (PyError.dashdConnectionError
          ("Failed to execute dashd: " ++ st.dashd_executable)),
        state := st2, actions := acts }
    else
      let st3 := { st2 with process := some pid }
      let acts := acts ++ [MgrAction.launchProcess pid, MgrAction.registerAtexit]
      if (waitForReady dead rpcReady stderrText 30).ready then
        { outcome := Except.ok (ap, tempDirName), state := st3, actions := acts }
      else
        let stopped := st3.stop graceful
        { outcome := Except.error (PyError.dashdConnectionError
            "dashd failed to start within 30 seconds. Check dashd installation."),
          state := stopped.1, actions := acts ++ stopped.2 }

/-- `DashdManager.start`: validates the executable (`exeOk` abstracts
`verify_dashd_executable`), then resolves the control port — the
requested one when set and free, else the first free port from 19998 —
and continues with `startWithPort`. -/
def DashdManagerState.start (exeOk : Bool) (portFree : Nat → Bool)
    (tempDirName : String) (pid : Nat) (launchOk : Bool)
    (dead rpcReady : Nat → Bool) (stderrText : String)
    (graceful keep_temp : Bool) (st : DashdManagerState) : StartResult :=
  if exeOk = false then
    { outcome := Except.error (PyError.dashdConnectionError
        ("dashd executable not found or not runnable: " ++ st.dashd_executable)),
      state := st, actions := [] }
  else
    match st.requested_port with
    | some rp =>
      if portFree rp then
        startWithPort portFree tempDirName pid launchOk dead rpcReady stderrText
          graceful keep_temp rp st
      else
        { outcome := Except.error (PyError.dashdConnectionError
            ("Requested RPC port " ++ toString rp ++ " is not available")),
          state := st, actions := [] }
    | none =>
      match find_free_port portFree 19998 20 with
      | some p =>
        startWithPort portFree tempDirName pid launchOk dead rpcReady stderrText
          graceful keep_temp p st
      | none =>
        { outcome := Except.error (PyError.dashdConnectionError
            "No free RPC port found in range 19998-20017"),
          state := st, actions := [] }

/-- C4: `stop` is idempotent — a second `stop` after a completed one
performs no action and changes nothing; after `stop` the process handle
is cleared and the temporary-directory reference is cleared exactly when
cleanup was enabled; and `stop` on a freshly constructed manager (whose
`start` was never invoked) is safe and changes nothing. -/
theorem c4_stop_idempotent (st : DashdManagerState) (g1 g2 : Bool)
    (exe : String) (port : Option Nat) (extra : List String) :
    ((st.stop g1).1.stop g2 = ((st.stop g1).1, []) ∧
      (st.stop g1).1.process = none ∧
      (st.stop g1).1.temp_dir = (if st.should_cleanup then none else st.temp_dir) ∧
      (st.stop g1).1.should_cleanup = st.should_cleanup) ∧
    (DashdManagerState.init exe port extra).stop g1 =
      (DashdManagerState.init exe port extra, []) := by
  obtain ⟨e, rp, ea, ap, pp, td, pr, sc⟩ := st
  constructor
  · cases pr <;> cases td <;> cases sc <;>
      simp [DashdManagerState.stop] <;> cases g2 <;> simp
  · simp [DashdManagerState.stop, DashdManagerState.init]

/-- C5: when the configured executable is absent or not executable,
`start` raises the startup error before resolving any port, creating any
directory or launching any process: the state is unchanged (ports, temp
dir and process handle still unset) and no OS action — in particular no
directory cleanup — is performed. -/
theorem c5_missing_executable (exeOk : Bool) (portFree : Nat → Bool)
    (tempDirName : String) (pid : Nat) (launchOk : Bool)
    (dead rpcReady : Nat → Bool) (stderrText : String)
    (graceful keep_temp : Bool) (exe : String) (rport : Option Nat)
    (extra : List String) (h : exeOk = false) :
    ((DashdManagerState.init exe rport extra).start exeOk portFree tempDirName pid
        launchOk dead rpcReady stderrText graceful keep_temp).outcome =
      Except.error (PyError.dashdConnectionError
        ("dashd executable not found or not runnable: " ++ exe)) ∧
    ((DashdManagerState.init exe rport extra).start exeOk portFree tempDirName pid
        launchOk dead rpcReady stderrText graceful keep_temp).state =
      DashdManagerState.init exe rport extra ∧
    ((DashdManagerState.init exe rport extra).start exeOk portFree tempDirName pid
        launchOk dead rpcReady stderrText graceful keep_temp).state.temp_dir = none ∧
    ((DashdManagerState.init exe rport extra).start exeOk portFree tempDirName pid
        launchOk dead rpcReady stderrText graceful keep_temp).state.actual_port = none ∧
    ((DashdManagerState.init exe rport extra).start exeOk portFree tempDirName pid
        launchOk dead rpcReady stderrText graceful keep_temp).state.process = none ∧
    ((DashdManagerState.init exe rport extra).start exeOk portFree tempDirName pid
        launchOk dead rpcReady stderrText graceful keep_temp).actions = [] := by
  subst h
  simp [DashdManagerState.start, DashdManagerState.init]

/-- Witness for C5 at concrete oracle values. -/
theorem c5_missing_executable_witness :
    ((DashdManagerState.init "dashd" none []).start false (fun _ => true) "td" 7
        true (fun _ => false) (fun _ => true) "err" true false).outcome =
      Except.error (PyError.dashdConnectionError
        ("dashd executable not found or not runnable: " ++ "dashd")) ∧
    ((DashdManagerState.init "dashd" none []).start false (fun _ => true) "td" 7
        true (fun _ => false) (fun _ => true) "err" true false).state =
      DashdManagerState.init "dashd" none [] ∧
    ((DashdManagerState.init "dashd" none []).start false (fun _ => true) "td" 7
        true (fun _ => false) (fun _ => true) "err" true false).state.temp_dir = none ∧
    ((DashdManagerState.init "dashd" none []).start false (fun _ => true) "td" 7
        true (fun _ => false) (fun _ => true) "err" true false).state.actual_port = none ∧
    ((DashdManagerState.init "dashd" none []).start false (fun _ => true) "td" 7
        true (fun _ => false) (fun _ => true) "err" true false).state.process = none ∧
    ((DashdManagerState.init "dashd" none []).start false (fun _ => true) "td" 7
        true (fun _ => false) (fun _ => true) "err" true false).actions = [] :=
  c5_missing_executable false (fun _ => true) "td" 7 true (fun _ => false)
    (fun _ => true) "err" true false "dashd" none [] rfl

/-- All candidate ports free: `find_free_port` returns the first
candidate. -/
theorem find_free_port_all_free (s n : Nat) (h : 0 < n) :
    find_free_port (fun _ => true) s n = some s := by
  cases n with
  | zero => omega
  | succ m =>
    rw [find_free_port, List.range'_succ]
    exact List.find?_cons_of_pos _ rfl

/-- The readiness poll returns `false` right at the first slot `k` where
the process is observed dead, provided `k` is inside the budget. -/
theorem waitForReadyGo_dead_spec (dead rpcReady : Nat → Bool) (serr : String) :
    ∀ budget i k : Nat, i ≤ k → k < i + budget →
      (∀ j, i ≤ j → j < k → dead j = false ∧ rpcReady j = false) →
      dead k = true →
      waitForReadyGo dead rpcReady serr budget i =
        { ready := false, iterations := k + 1, printedStderr := some serr } := by
  intro budget
  induction budget with
  | zero => intro i k h1 h2 _ _; omega
  | succ b ih =>
    intro i k h1 h2 hbef hk
    rw [waitForReadyGo]
    by_cases hik : i = k
    · subst hik
      rw [if_pos hk]
    · have hi := hbef i (le_refl i) (by omega)
      rw [if_neg (by simp [hi.1]), if_neg (by simp [hi.2])]
      exact ih (i + 1) k (by omega) (by omega) (fun j hj1 hj2 => hbef j (by omega) hj2) hk

/-- C6 (amended): the readiness poll re-checks process liveness on every
iteration, so when the launched process exits before becoming ready the
poll returns after that very iteration — printing the captured stderr —
instead of spinning for the full 60-slot (30 s) timeout; `start` then
raises the same generic `DashdConnectionError` that the timeout path
raises, not a distinct error carrying the output. -/
theorem c6_fail_fast_same_error (dead rpcReady : Nat → Bool) (serr : String)
    (k : Nat) (exe tempDirName : String) (rport : Option Nat) (extra : List String)
    (pid : Nat) (graceful keep_temp : Bool)
    (hk : k < 60)
    (hbefore : ∀ j, j < k → dead j = false ∧ rpcReady j = false)
    (hdead : dead k = true) :
    waitForReady dead rpcReady serr 30 =
      { ready := false, iterations := k + 1, printedStderr := some serr } ∧
    ((DashdManagerState.init exe rport extra).start true (fun _ => true)
        tempDirName pid true dead rpcReady serr graceful keep_temp).outcome =
      Except.error (PyError.dashdConnectionError
        "dashd failed to start within 30 seconds. Check dashd installation.") := by
  have hw : waitForReady dead rpcReady serr 30 =
      { ready := false, iterations := k + 1, printedStderr := some serr } :=
    waitForReadyGo_dead_spec dead rpcReady serr 60 0 k (Nat.zero_le k) (by omega)
      (fun j _ hj2 => hbefore j hj2) hdead
  refine ⟨hw, ?_⟩
  have h1 : find_free_port (fun _ => true) 19998 20 = some 19998 :=
    find_free_port_all_free 19998 20 (by norm_num)
  have h2 : ∀ p : Nat, find_free_port (fun _ => true) (p + 1) 20 = some (p + 1) :=
    fun p => find_free_port_all_free (p + 1) 20 (by norm_num)
  cases rport with
  | none =>
    simp [DashdManagerState.start, DashdManagerState.init, startWithPort, h1, h2, hw]
  | some rp =>
    simp [DashdManagerState.start, DashdManagerState.init, startWithPort, h1, h2, hw]

/-- Witness for C6's amended theorem: the process dies at the first poll
slot. -/
theorem c6_fail_fast_same_error_witness :
    waitForReady (fun _ => true) (fun _ => false) "boom" 30 =
      { ready := false, iterations := 0 + 1, printedStderr := some "boom" } ∧
    ((DashdManagerState.init "dashd" none []).start true (fun _ => true)
        "td" 7 true (fun _ => true) (fun _ => false) "boom" true false).outcome =
      Except.error (PyError.dashdConnectionError
        "dashd failed to start within 30 seconds. Check dashd installation.") :=
  c6_fail_fast_same_error (fun _ => true) (fun _ => false) "boom" 0 "dashd" "td"
    none [] 7 true false (by norm_num) (fun j hj => absurd hj (Nat.not_lt_zero j)) rfl

/-- C6 counterexample: a process dead at the first poll makes the run
fail after a single iteration, yet `start` raises exactly the same error
value that a full 60-iteration timeout produces — the claimed distinct
`ProcessExited` error (carrying the captured stderr) does not exist. -/
theorem c6_same_error_counterexample :
    (waitForReady (fun _ => true) (fun _ => false) "boom" 30).iterations = 1 ∧
    (waitForReady (fun _ => false) (fun _ => false) "boom" 30).iterations = 60 ∧
    (waitForReady (fun _ => true) (fun _ => false) "boom" 30).ready = false ∧
    (waitForReady (fun _ => false) (fun _ => false) "boom" 30).ready = false ∧
    ((DashdManagerState.init "dashd" none []).start true (fun _ => true) "td" 7 true
        (fun _ => true) (fun _ => false) "boom" true false).outcome =
      ((DashdManagerState.init "dashd" none []).start true (fun _ => true) "td" 7 true
        (fun _ => false) (fun _ => false) "boom" true false).outcome ∧
    ((DashdManagerState.init "dashd" none []).start true (fun _ => true) "td" 7 true
        (fun _ => true) (fun _ => false) "boom" true false).outcome =
      Except.error (PyError.dashdConnectionError
        "dashd failed to start within 30 seconds. Check dashd installation.") :=
  ⟨rfl, rfl, rfl, rfl, rfl, rfl⟩

/-! ## Wallet-setup error absorption (`generate.py`) -/

/-- `pat` occurs as a contiguous sublist of the second argument. -/
def listContainsAux (pat : List Char) : List Char → Bool
  | [] => pat.isEmpty
  | c :: rest => pat.isPrefixOf (c :: rest) || listContainsAux pat rest

/-- Python's substring test `pat in s`. -/
def strContains (s pat : String) : Bool := listContainsAux pat.data s.data

/-- ASCII lower-casing; embedding of Python `str.lower` for the ASCII
error messages compared in the wallet-setup handlers. -/
def pyLower (s : String) : String :=
  ⟨s.data.map fun c => if 'A' ≤ c ∧ c ≤ 'Z' then Char.ofNat (c.toNat + 32) else c⟩

/-- How the wallet-ensuring step of `Generator._verify_dashd` finished. -/
inductive VerifyWalletOutcome where
  | loaded
  | alreadyLoaded
  | created
deriving DecidableEq

/-- `Generator._verify_dashd` (generate.py): check connectivity via
`getblockcount` (a connection error propagates), then try `loadwallet`;
an `RPCError` whose lowered message contains "already loaded" is
absorbed; one containing "not found" or "does not exist" triggers
`createwallet` instead (whose own `RPCError` propagates, there being no
handler around it); any other `RPCError` propagates. -/
def verify_dashd (getblockcount : Except PyError Nat)
    (loadwallet createwallet : Except String Unit) :
    Except PyError VerifyWalletOutcome :=
  match getblockcount with
  | Except.error e => Except.error e
  | Except.ok _ =>
    match loadwallet with
    | Except.ok _ => Except.ok VerifyWalletOutcome.loaded
    | Except.error e =>
      let error_msg := pyLower e
      if strContains error_msg "already loaded" then
        Except.ok VerifyWalletOutcome.alreadyLoaded
      else if strContains error_msg "not found" || strContains error_msg "does not exist" then
        match createwallet with
        | Except.ok _ => Except.ok VerifyWalletOutcome.created
        | Except.error ce => Except.error (PyError.rpcError ce)
      else Except.error (PyError.rpcError e)

/-- The `createwallet` handling of `WalletSyncGenerator._load_addresses`
(generate.py): an `RPCError` whose lowered message contains
"already exists" or "already loaded" is absorbed (`Except.ok false`,
the wallet already existed); any other `RPCError` propagates. -/
def load_addresses_create_wallet (createwallet : Except String Unit) :
    Except String Bool :=
  match createwallet with
  | Except.ok _ => Except.ok true
  | Except.error e =>
    let error_msg := pyLower e
    if strContains error_msg "already exists" || strContains error_msg "already loaded" then
      Except.ok false
    else Except.error e

/-- C7: during wallet setup the explicitly anticipated benign
`ApplicationError` conditions are absorbed and the phase continues as
success — "already loaded" on loading the faucet wallet; "not found" or
"does not exist" on load triggering creation instead; "already exists"
or "already loaded" on creating the test wallet — while any other
`ApplicationError` propagates and aborts the run. -/
theorem c7_expected_rpc_errors_absorbed (e ce : String) (bc : Nat)
    (cw : Except String Unit) :
    (strContains (pyLower e) "already loaded" = true →
      verify_dashd (Except.ok bc) (Except.error e) cw =
        Except.ok VerifyWalletOutcome.alreadyLoaded) ∧
    (strContains (pyLower e) "already loaded" = false →
      (strContains (pyLower e) "not found" = true ∨
        strContains (pyLower e) "does not exist" = true) →
      verify_dashd (Except.ok bc) (Except.error e) (Except.ok ()) =
        Except.ok VerifyWalletOutcome.created) ∧
    (strContains (pyLower e) "already loaded" = false →
      strContains (pyLower e) "not found" = false →
      strContains (pyLower e) "does not exist" = false →
      verify_dashd (Except.ok bc) (Except.error e) cw =
        Except.error (PyError.rpcError e)) ∧
    ((strContains (pyLower ce) "already exists" = true ∨
        strContains (pyLower ce) "already loaded" = true) →
      load_addresses_create_wallet (Except.error ce) = Except.ok false) ∧
    (strContains (pyLower ce) "already exists" = false →
      strContains (pyLower ce) "already loaded" = false →
      load_addresses_create_wallet (Except.error ce) = Except.error ce) := by
  refine ⟨?_, ?_, ?_, ?_, ?_⟩
  · intro h1
    simp [verify_dashd, h1]
  · intro h1 h2
    rcases h2 with h2 | h2 <;> simp [verify_dashd, h1, h2]
  · intro h1 h2 h3
    simp [verify_dashd, h1, h2, h3]
  · intro h1
    rcases h1 with h1 | h1 <;> simp [load_addresses_create_wallet, h1]
  · intro h1 h2
    simp [load_addresses_create_wallet, h1, h2]

/-- Witness for C7 at concrete error messages. -/
theorem c7_expected_rpc_errors_absorbed_witness :
    verify_dashd (Except.ok 5) (Except.error "Wallet ALREADY loaded!") (Except.ok ()) =
      Except.ok VerifyWalletOutcome.alreadyLoaded ∧
    verify_dashd (Except.ok 5) (Except.error "Wallet not found") (Except.ok ()) =
      Except.ok VerifyWalletOutcome.created ∧
    verify_dashd (Except.ok 5) (Except.error "Broken pipe") (Except.ok ()) =
      Except.error (PyError.rpcError "Broken pipe") ∧
    load_addresses_create_wallet (Except.error "Wallet already exists.") =
      Except.ok false ∧
    load_addresses_create_wallet (Except.error "Broken pipe") =
      Except.error "Broken pipe" :=
  ⟨(c7_expected_rpc_errors_absorbed "Wallet ALREADY loaded!" "x" 5 (Except.ok ())).1
      (by decide),
    (c7_expected_rpc_errors_absorbed "Wallet not found" "x" 5 (Except.ok ())).2.1
      (by decide) (Or.inl (by decide)),
    (c7_expected_rpc_errors_absorbed "Broken pipe" "x" 5 (Except.ok ())).2.2.1
      (by decide) (by decide) (by decide),
    (c7_expected_rpc_errors_absorbed "x" "Wallet already exists." 5 (Except.ok ())).2.2.2.1
      (Or.inl (by decide)),
    (c7_expected_rpc_errors_absorbed "x" "Broken pipe" 5 (Except.ok ())).2.2.2.2
      (by decide) (by decide)⟩

/-! ## Top-level exit codes (`generate.py`: `Generator.generate` and `main`) -/

/-- What happened inside the `try` block of `Generator.generate`. -/
inductive GenerateBody where
  | ok
  | keyboardInterrupt
  | raised (e : PyError)

/-- The exception translation of `Generator.generate`: a
`KeyboardInterrupt` raised during the run is caught and re-raised as
`GeneratorError "User interrupted"`; other errors propagate unchanged. -/
def generate_outcome : GenerateBody → Except PyError Unit
  | GenerateBody.ok => Except.ok ()
  | GenerateBody.keyboardInterrupt =>
      Except.error (PyError.generatorError "User interrupted")
  | GenerateBody.raised e => Except.error e

/-- What `main`'s `try` observes from the `generator.generate()` call:
the call finished (normally or with an error), or a `KeyboardInterrupt`
reached `main` directly, outside `generate`'s own handler. -/
inductive MainObservation where
  | finished (r : Except PyError Unit)
  | keyboardInterruptOutside

/-- The exit-code dispatch of `main` (generate.py): 0 on success,
`ConfigError` → 1, `DashdConnectionError` → 2,
`InsufficientFundsError` → 3, `GeneratorError` → 4,
`KeyboardInterrupt` → 130.  A bare `RPCError` reaching `main` is mapped
to `none`: whether `except GeneratorError` catches it depends on the
class hierarchy in `generator/errors.py`, which is not among the
sources. -/
def main_exit_code : MainObservation → Option Nat
  | MainObservation.finished (Except.ok _) => some 0
  | MainObservation.finished (Except.error (PyError.configError _)) => some 1
  | MainObservation.finished (Except.error (PyError.dashdConnectionError _)) => some 2
  | MainObservation.finished (Except.error (PyError.insufficientFundsError _)) => some 3
  | MainObservation.finished (Except.error (PyError.generatorError _)) => some 4
  | MainObservation.finished (Except.error (PyError.rpcError _)) => none
  | MainObservation.keyboardInterruptOutside => some 130

/-- C9 counterexample: a `KeyboardInterrupt` during the run (inside
`generator.generate()`) makes the program exit with code 4 — the
interrupt is converted to `GeneratorError "User interrupted"` — and not
with the claimed code 130. -/
theorem c9_interrupt_exit_code_counterexample :
    main_exit_code (MainObservation.finished
        (generate_outcome GenerateBody.keyboardInterrupt)) = some 4 ∧
    (4 : Nat) ≠ 130 :=
  ⟨rfl, by decide⟩

/-- C9 (amended): a user interrupt during the run is converted by
`Generator.generate` into `GeneratorError` and the program exits with
code 4 (the "other generation error" code); exit code 130 is produced
only when a `KeyboardInterrupt` reaches `main` outside `generate`'s
handler.  The rest of the documented mapping (0 success, 1 configuration
error, 2 node-connection error, 3 insufficient funds, 4 other generation
error) holds. -/
theorem c9_exit_codes (m : String) :
    main_exit_code (MainObservation.finished
        (generate_outcome GenerateBody.keyboardInterrupt)) = some 4 ∧
    main_exit_code MainObservation.keyboardInterruptOutside = some 130 ∧
    main_exit_code (MainObservation.finished (generate_outcome GenerateBody.ok)) = some 0 ∧
    main_exit_code (MainObservation.finished
        (Except.error (PyError.configError m))) = some 1 ∧
    main_exit_code (MainObservation.finished
        (Except.error (PyError.dashdConnectionError m))) = some 2 ∧
    main_exit_code (MainObservation.finished
        (Except.error (PyError.insufficientFundsError m))) = some 3 ∧
    main_exit_code (MainObservation.finished
        (Except.error (PyError.generatorError m))) = some 4 :=
  ⟨rfl, rfl, rfl, rfl, rfl, rfl, rfl⟩

/-! ## Wallet statistics export (`generator/wallet_export.py`) -/

/-- One entry of a `listtransactions` response, with the fields
`collect_wallet_stats` reads; optional fields model Python `dict.get`
with a default. -/
structure TxEntry where
  txid : String
  address : Option String
  amount : ℚ
  confirmations : Option Nat
  blockhash : Option String
  time : Option Nat

/-- The transaction record `collect_wallet_stats` builds. -/
structure TxRecord where
  txid : String
  address : String
  amount : ℚ
  confirmations : Nat
  blockhash : String
  time : Nat

/-- One entry of a `listunspent` response. -/
structure UtxoEntry where
  txid : String
  vout : Nat
  address : Option String
  amount : ℚ
  confirmations : Option Nat

/-- The UTXO record `collect_wallet_stats` builds. -/
structure UtxoRecord where
  txid : String
  vout : Nat
  address : Option String
  amount : ℚ
  confirmations : Nat

/-- The dict returned by `collect_wallet_stats`. -/
structure WalletStats where
  wallet_name : String
  mnemonic : String
  transactions : List TxRecord
  utxos : List UtxoRecord
  balance : ℚ

/-- `collect_wallet_stats` (generator/wallet_export.py): each of the
three RPC calls is tried independently; an `RPCError` from
`listtransactions` leaves the transaction list empty, one from
`listunspent` leaves the UTXO list empty and the balance 0, one from
`dumphdinfo` leaves the mnemonic empty.  On success the balance is the
sum of the raw UTXO amounts. -/
def collect_wallet_stats (wallet_name : String)
    (listtransactions : Except String (List TxEntry))
    (listunspent : Except String (List UtxoEntry))
    (dumphdinfo : Except String (Option String)) : WalletStats :=
  let transactions :=
    match listtransactions with
    | Except.ok txs => txs.map (fun tx =>
        { txid := tx.txid, address := tx.address.getD "", amount := tx.amount,
          confirmations := tx.confirmations.getD 0,
          blockhash := tx.blockhash.getD "", time := tx.time.getD 0 })
    | Except.error _ => []
  let utxosBalance : List UtxoRecord × ℚ :=
    match listunspent with
    | Except.ok wallet_utxos =>
      (wallet_utxos.map (fun u : UtxoEntry =>
          { txid := u.txid, vout := u.vout, address := u.address,
            amount := u.amount, confirmations := u.confirmations.getD 0 }),
        (wallet_utxos.map (fun u : UtxoEntry => u.amount)).sum)
    | Except.error _ => ([], 0)
  let mnemonic :=
    match dumphdinfo with
    | Except.ok info => info.getD ""
    | Except.error _ => ""
  { wallet_name := wallet_name, mnemonic := mnemonic,
    transactions := transactions, utxos := utxosBalance.1,
    balance := utxosBalance.2 }

/-- C10: for every wallet, the exported balance equals the sum of the
amounts of the exported UTXO list, and when the UTXO query raises an
application error the UTXO list is empty and the balance is 0. -/
theorem c10_balance_matches_utxos (wn : String)
    (lt : Except String (List TxEntry)) (lu : Except String (List UtxoEntry))
    (hd : Except String (Option String)) :
    (collect_wallet_stats wn lt lu hd).balance =
      ((collect_wallet_stats wn lt lu hd).utxos.map (fun u => u.amount)).sum ∧
    (∀ e, lu = Except.error e →
      (collect_wallet_stats wn lt lu hd).utxos = [] ∧
      (collect_wallet_stats wn lt lu hd).balance = 0) := by
  constructor
  · cases lu with
    | ok us =>
      simp only [collect_wallet_stats, List.map_map]
      rfl
    | error e => simp [collect_wallet_stats]
  · rintro e rfl
    simp [collect_wallet_stats]

/-- Witness for C10: a failing UTXO query yields an empty list and zero
balance. -/
theorem c10_balance_matches_utxos_witness :
    (collect_wallet_stats "wallet" (Except.ok []) (Except.error "boom")
        (Except.ok none)).utxos = [] ∧
    (collect_wallet_stats "wallet" (Except.ok []) (Except.error "boom")
        (Except.ok none)).balance = 0 :=
  (c10_balance_matches_utxos "wallet" (Except.ok []) (Except.error "boom")
      (Except.ok none)).2 "boom" rfl

/-! ## Generation engine (`generate.py`, class `WalletSyncGenerator`)

The engine is modelled on its success path: every RPC call the code does
not wrap in a `try` block is assumed to succeed (a connection error
anywhere is fatal to the run and produces no further events), and
`generatetoaddress count addr` advances the chain height by `count`.
The `random.random() < 0.01` draw of the bulk loop is modelled by a
Boolean oracle consulted once per normal loop iteration.  The
wallet-record list built for the export step is not observed here; the
event trace records the node-visible operations of the run. -/

/-- `WalletSyncGenerator.NUM_ADDRESSES`. -/
def NUM_ADDRESSES : Nat := 50

/-- Node-visible operations of a generator run. -/
inductive Event where
  /-- `_send_to_wallet index amount description`: `sendtoaddress` from
  the faucet to the test-wallet address `addr` stored at `index`. -/
  | sent (index : Nat) (addr : String) (amount : ℚ) (description : String)
  /-- `_send_to_wallet` against an index missing from
  `wallet_addresses` (a Python `KeyError`; unreachable in the runs
  modelled here, where indices 0–49 are always populated). -/
  | sentKeyError (index : Nat)
  /-- `generatetoaddress count addr`. -/
  | mined (count : Nat) (addr : String)
  /-- `sendmany` from the faucet to the given recipients. -/
  | sentMany (recipients : List (String × ℚ))
  /-- removal of a height from the batch-boundary schedule
  (`batch_boundaries.remove(boundary)`), recording the tracked current
  height at the removal. -/
  | removedBoundary (boundary height : Nat)
  /-- phase 5: `sendtoaddress` spending from the test wallet back to a
  fresh faucet address. -/
  | spentFromWallet (amount : ℚ)
  /-- phase 5: consolidation raw transaction over `inputs` UTXOs. -/
  | consolidated (inputs : Nat)
  /-- phase 6: occasional faucet self-send. -/
  | faucetSelfSend
deriving DecidableEq

/-- The generator attributes the claims concern: the tracked chain
height (the node's `getblockcount`), the address-index mapping
`wallet_addresses`, the faucet mining address, the two statistics
counters the phases touch, and the event trace. -/
structure GenState where
  height : Nat
  wallet_addresses : List (Nat × String)
  mining_address : String
  transactions_created : Nat
  coinbase_rewards : Nat
  trace : List Event
deriving DecidableEq

/-- A fresh generator (`Generator.__init__`): empty address mapping,
zeroed statistics, no events yet. -/
def initGenState (mining_address : String) (height : Nat) : GenState :=
  { height := height, wallet_addresses := [], mining_address := mining_address,
    transactions_created := 0, coinbase_rewards := 0, trace := [] }

/-- `WalletSyncGenerator._send_to_wallet`: look up the address stored at
`index` and send `amount` to it from the faucet, incrementing the
transaction counter. -/
def send_to_wallet (g : GenState) (index : Nat) (amount : ℚ)
    (description : String) : GenState :=
  match g.wallet_addresses.lookup index with
  | some address =>
    { g with trace := g.trace ++ [Event.sent index address amount description],
             transactions_created := g.transactions_created + 1 }
  | none => { g with trace := g.trace ++ [Event.sentKeyError index] }

/-- `WalletSyncGenerator._mine_blocks`: mine `count` blocks to the given
address, or to the faucet mining address when none is given. -/
def mine_blocks (g : GenState) (count : Nat) (address : Option String) : GenState :=
  { g with height := g.height + count,
           trace := g.trace ++ [Event.mined count (address.getD g.mining_address)] }

/-- A `sendmany` from the faucet (with its statistics increment). -/
def sendmany_faucet (g : GenState) (recipients : List (String × ℚ)) : GenState :=
  { g with trace := g.trace ++ [Event.sentMany recipients],
           transactions_created := g.transactions_created + 1 }

/-- Phase 5's `sendtoaddress` spending from the test wallet. -/
def spend_from_wallet (g : GenState) (amount : ℚ) : GenState :=
  { g with trace := g.trace ++ [Event.spentFromWallet amount],
           transactions_created := g.transactions_created + 1 }

/-- Phase 5's consolidation raw transaction broadcast. -/
def consolidate (g : GenState) (inputs : Nat) : GenState :=
  { g with trace := g.trace ++ [Event.consolidated inputs],
           transactions_created := g.transactions_created + 1 }

/-- Phase 6's occasional faucet self-send (no statistics increment in
the code). -/
def faucet_self_send (g : GenState) : GenState :=
  { g with trace := g.trace ++ [Event.faucetSelfSend] }

/-- Observation of `batch_boundaries.remove(boundary)` in the trace. -/
def record_boundary_removal (g : GenState) (boundary height : Nat) : GenState :=
  { g with trace := g.trace ++ [Event.removedBoundary boundary height] }

/-- `self.stats["coinbase_rewards"] += n`. -/
def add_coinbase_rewards (g : GenState) (n : Nat) : GenState :=
  { g with coinbase_rewards := g.coinbase_rewards + n }

/-- `WalletSyncGenerator._load_addresses`: populate the address mapping
with the 50 sequentially generated receiving addresses (`addrOf i` is
the address the node returns for the i-th `getnewaddress` call). -/
def load_addresses (addrOf : Nat → String) (g : GenState) : GenState :=
  { g with wallet_addresses := (List.range NUM_ADDRESSES).map (fun i => (i, addrOf i)) }

/-- Phase 2 (`_phase_normal_activity`): dust, small, medium and large
sends to various indices, an address reuse at index 5, a `sendmany` to
indices 3, 7and 14, interleaved with small mining steps. -/
def phase_normal_activity (g : GenState) : GenState :=
  let g := send_to_wallet g 0 0.00001 "dust"
  let g := mine_blocks g 2 none
  let g := send_to_wallet g 2 0.05 "small"
  let g := send_to_wallet g 5 0.5 "medium"
  let g := mine_blocks g 2 none
  let g := send_to_wallet g 8 1.0 "medium"
  let g := send_to_wallet g 12 2.5 "medium"
  let g := mine_blocks g 2 none
  let g := send_to_wallet g 15 100.0 "large"
  let g := send_to_wallet g 20 0.1 "small"
  let g := mine_blocks g 2 none
  let g := send_to_wallet g 5 0.25 "address reuse"
  let g := mine_blocks g 1 none
  let g := sendmany_faucet g
    [((g.wallet_addresses.lookup 3).getD "", 0.1),
     ((g.wallet_addresses.lookup 7).getD "", 0.2),
     ((g.wallet_addresses.lookup 14).getD "", 0.3)]
  let g := mine_blocks g 1 none
  mine_blocks g 10 none

/-- Phase 3 (`_phase_gap_limit_boundary`): sends to indices 27, 28, 29 —
the last three inside the initial discovery window — each followed by
mining. -/
def phase_gap_limit_boundary (g : GenState) : GenState :=
  let g := send_to_wallet g 27 0.3 "gap limit -3"
  let g := mine_blocks g 3 none
  let g := send_to_wallet g 28 0.4 "gap limit -2"
  let g := mine_blocks g 3 none
  let g := send_to_wallet g 29 0.5 "gap limit -1 (last in initial gap)"
  let g := mine_blocks g 3 none
  mine_blocks g 10 none

/-- Phase 4 (`_phase_beyond_gap_limit`): sends to indices 32 and 35,
beyond the initial discovery window. -/
def phase_beyond_gap_limit (g : GenState) : GenState :=
  let g := send_to_wallet g 32 0.6 "beyond gap (discoverable after rescan)"
  let g := mine_blocks g 5 none
  let g := send_to_wallet g 35 0.7 "beyond gap (discoverable after rescan)"
  let g := mine_blocks g 5 none
  mine_blocks g 10 none

/-- The two smallest wallet UTXOs (Python
`sorted(wallet_utxos, key=amount)[:2]`). -/
def consolidationSelected (walletUtxos : List UtxoEntry) : List UtxoEntry :=
  (walletUtxos.mergeSort (fun a b => a.amount ≤ b.amount)).take 2

/-- The consolidation attempt of phase 5: when at least two wallet
UTXOs exist and the two smallest exceed the fixed fee 0.0001, build,
sign and broadcast the merging raw transaction; it is broadcast only
when the signature is complete (`signComplete`). -/
def consolidation_step (walletUtxos : List UtxoEntry) (signComplete : Bool)
    (g : GenState) : GenState :=
  if 2 ≤ walletUtxos.length then
    if (0.0001 : ℚ) < ((consolidationSelected walletUtxos).map (fun u => u.amount)).sum then
      if signComplete then consolidate g (consolidationSelected walletUtxos).length
      else g
    else g
  else g

/-- Phase 5 (`_phase_transaction_variety`): fund the test wallet, spend
from it back to the faucet, then attempt a consolidation of the two
smallest wallet UTXOs when at least two exist and their value exceeds
the fixed fee.  `walletUtxos` is the `listunspent` response for the test
wallet and `signComplete` whether `signrawtransactionwithwallet`
reported a complete signature. -/
def phase_transaction_variety (walletUtxos : List UtxoEntry)
    (signComplete : Bool) (g : GenState) : GenState :=
  let g := send_to_wallet g 0 5.0 "funding for spend-from-wallet"
  let g := mine_blocks g 1 none
  let g := spend_from_wallet g 1.0
  let g := mine_blocks g 3 none
  let g := consolidation_step walletUtxos signComplete g
  let g := mine_blocks g 3 none
  mine_blocks g 10 none

/-- The local variables of `_phase_bulk_generation`'s while loop. -/
structure BulkLocals where
  current : Nat
  batch_boundaries : List Nat
  boundary_addr_index : Nat
  next_periodic_height : Nat
  periodic_counter : Nat
  rng_calls : Nat
deriving DecidableEq

/-- The rotating address indices of the periodic sends. -/
def periodic_addresses : List Nat := [1, 4, 6, 9, 10, 13, 16, 18, 21, 23, 25, 30, 33, 36, 38]

/-- The rotating amounts of the periodic sends. -/
def periodic_amounts : List ℚ :=
  [0.02, 0.15, 0.5, 1.0, 0.001, 3.0, 0.08, 0.25, 0.75, 2.0, 0.005, 0.4, 1.5, 0.03, 0.1]

/-- `next_important_height`: the target, lowered to the nearest
scheduled boundary above the current height. -/
def bulkNextImportant (boundaries : List Nat) (current target : Nat) : Nat :=
  boundaries.foldl (fun ni boundary => if boundary > current then min ni boundary else ni) target

/-- The body of `for boundary in list(batch_boundaries)` in phase 6:
when the current height has reached or passed `boundary`, send the
boundary-marker transaction (only while `boundary_addr_index` is below
`NUM_ADDRESSES`) followed by one block, then remove the boundary from
the live schedule. -/
def bulkBoundaryStep (s : GenState × BulkLocals) (boundary : Nat) :
    GenState × BulkLocals :=
  if boundary ≤ s.2.current then
    let s2 :=
      if s.2.boundary_addr_index < NUM_ADDRESSES then
        let g := send_to_wallet s.1 s.2.boundary_addr_index 0.01
          ("batch boundary near height " ++ toString boundary)
        let g := mine_blocks g 1 none
        (g, { s.2 with current := s.2.current + 1,
                       boundary_addr_index := s.2.boundary_addr_index + 1 })
      else s
    (record_boundary_removal s2.1 boundary s2.2.current,
     { s2.2 with batch_boundaries := s2.2.batch_boundaries.erase boundary })
  else s

/-- The boundary pass of one bulk iteration: iterate over a snapshot of
the schedule while removing passed boundaries from the live schedule. -/
def bulkBoundaryPass (g : GenState) (l : BulkLocals) : GenState × BulkLocals :=
  l.batch_boundaries.foldl bulkBoundaryStep (g, l)

/-- `next_important_height` after the three coinbase-window
adjustments. -/
def bulkNextImportantHeight (target : Nat) (l : BulkLocals) : Nat :=
  let mature_coinbase_start := target - 200
  let mature_coinbase_end := target - 101
  let immature_coinbase_start := target - 99
  let ni := bulkNextImportant l.batch_boundaries l.current target
  let ni := if l.current < mature_coinbase_start ∧ mature_coinbase_start < ni then
    mature_coinbase_start else ni
  let ni := if l.current < mature_coinbase_end ∧ mature_coinbase_end < ni then
    mature_coinbase_end else ni
  if l.current < immature_coinbase_start ∧ immature_coinbase_start < ni then
    immature_coinbase_start else ni

/-- `blocks_to_mine`: up to the next important height, capped by the
batch size 500, at least 1. -/
def bulkBlocksToMine (target : Nat) (l : BulkLocals) : Nat :=
  max (min (bulkNextImportantHeight target l - l.current) 500) 1

/-- One iteration of the phase-6 while loop. -/
def bulkIter (target : Nat) (oracle : Nat → Bool) (g : GenState)
    (l : BulkLocals) : GenState × BulkLocals :=
  let mature_coinbase_start := target - 200
  let mature_coinbase_end := target - 101
  let immature_coinbase_start := target - 99
  let blocks_to_mine := bulkBlocksToMine target l
  let batch_end := l.current + blocks_to_mine
  if mature_coinbase_start ≤ l.current ∧ l.current < mature_coinbase_end then
    let coinbase_wallet_addr := (g.wallet_addresses.lookup 0).getD ""
    let wallet_blocks := min 5 (batch_end - l.current)
    let g := mine_blocks g wallet_blocks (some coinbase_wallet_addr)
    let g := add_coinbase_rewards g wallet_blocks
    let cur := l.current + wallet_blocks
    let remaining := batch_end - cur
    let g := if 0 < remaining then mine_blocks g remaining none else g
    (g, { l with current := cur + remaining })
  else if immature_coinbase_start ≤ l.current then
    let coinbase_wallet_addr := (g.wallet_addresses.lookup 0).getD ""
    let wallet_blocks := min 5 (target - l.current)
    let g := mine_blocks g wallet_blocks (some coinbase_wallet_addr)
    let g := add_coinbase_rewards g wallet_blocks
    let cur := l.current + wallet_blocks
    let remaining := target - cur
    let g := if 0 < remaining then mine_blocks g remaining none else g
    (g, { l with current := cur + remaining })
  else
    let g := mine_blocks g blocks_to_mine none
    let l := { l with current := l.current + blocks_to_mine }
    let s := bulkBoundaryPass g l
    let g := s.1
    let l := s.2
    let s :=
      if l.next_periodic_height ≤ l.current then
        let idx := periodic_addresses.getD (l.periodic_counter % periodic_addresses.length) 0
        let amt := periodic_amounts.getD (l.periodic_counter % periodic_amounts.length) 0
        let g := send_to_wallet g idx amt ("periodic at height " ++ toString l.current)
        let g := mine_blocks g 1 none
        let l := { l with current := l.current + 1 }
        (g, { l with periodic_counter := l.periodic_counter + 1,
                     next_periodic_height := l.current + 1000 })
      else (g, l)
    let g := s.1
    let l := s.2
    if oracle l.rng_calls then
      let g := faucet_self_send g
      let g := mine_blocks g 1 none
      (g, { l with current := l.current + 1, rng_calls := l.rng_calls + 1 })
    else (g, { l with rng_calls := l.rng_calls + 1 })

/-- The phase-6 while loop (`while current_height < target`), driven by
an explicit fuel; each iteration advances the height by at least one, so
any fuel of at least `target - current` completes the loop. -/
def bulkLoop (target : Nat) (oracle : Nat → Bool) :
    Nat → GenState → BulkLocals → GenState × BulkLocals
  | 0, g, l => (g, l)
  | fuel + 1, g, l =>
    if l.current < target then
      let s := bulkIter target oracle g l
      bulkLoop target oracle fuel s.1 s.2
    else (g, l)

/-- `WalletSyncGenerator._phase_bulk_generation`: skipped when already
at or past the target; otherwise compute the batch-boundary schedule,
run the while loop, and mine any shortfall left at the end (overshoot is
only logged). -/
def phase_bulk_generation (target : Nat) (oracle : Nat → Bool) (fuel : Nat)
    (g : GenState) : GenState × BulkLocals :=
  let current_height := g.height
  let l0 : BulkLocals :=
    { current := current_height,
      batch_boundaries := calculate_batch_boundaries current_height target,
      boundary_addr_index := 40,
      next_periodic_height := current_height + 1000,
      periodic_counter := 0, rng_calls := 0 }
  if target ≤ current_height then (g, l0)
  else
    let s := bulkLoop target oracle fuel g l0
    if s.2.current < target then
      (mine_blocks s.1 (target - s.2.current) none, { s.2 with current := target })
    else s

/-- `WalletSyncGenerator._generate_blocks`: phases 2–6 in order. -/
def generate_blocks (target : Nat) (oracle : Nat → Bool)
    (walletUtxos : List UtxoEntry) (signComplete : Bool) (fuel : Nat)
    (g : GenState) : GenState × BulkLocals :=
  let g := phase_normal_activity g
  let g := phase_gap_limit_boundary g
  let g := phase_beyond_gap_limit g
  let g := phase_transaction_variety walletUtxos signComplete g
  phase_bulk_generation target oracle fuel g

/-- Number of schedule removals of the boundary `b` in a trace. -/
def removalsFor (b : Nat) (tr : List Event) : Nat :=
  (tr.filter fun e => match e with
    | Event.removedBoundary b2 _ => b2 == b
    | _ => false).length

/-- Total number of schedule removals in a trace. -/
def totalRemovals (tr : List Event) : Nat :=
  (tr.filter fun e => match e with
    | Event.removedBoundary _ _ => true
    | _ => false).length

/-- The address indices of the boundary-marker sends, in trace order:
within phase 6 exactly the sends against indices 40–49 are the
boundary-marker transactions (periodic sends use indices below 40). -/
def markerIdxs (tr : List Event) : List Nat :=
  tr.filterMap fun e => match e with
    | Event.sent i _ _ _ => if 40 ≤ i then some i else none
    | _ => none

theorem removalsFor_append (b : Nat) (t1 t2 : List Event) :
    removalsFor b (t1 ++ t2) = removalsFor b t1 + removalsFor b t2 := by
  simp [removalsFor, List.filter_append]

theorem totalRemovals_append (t1 t2 : List Event) :
    totalRemovals (t1 ++ t2) = totalRemovals t1 + totalRemovals t2 := by
  simp [totalRemovals, List.filter_append]

theorem markerIdxs_append (t1 t2 : List Event) :
    markerIdxs (t1 ++ t2) = markerIdxs t1 ++ markerIdxs t2 := by
  simp [markerIdxs, List.filterMap_append]

theorem removalsFor_sent (b i : Nat) (a : String) (q : ℚ) (d : String) :
    removalsFor b [Event.sent i a q d] = 0 := rfl

theorem removalsFor_keyError (b i : Nat) :
    removalsFor b [Event.sentKeyError i] = 0 := rfl

theorem removalsFor_mined (b n : Nat) (a : String) :
    removalsFor b [Event.mined n a] = 0 := rfl

theorem removalsFor_selfSend (b : Nat) :
    removalsFor b [Event.faucetSelfSend] = 0 := rfl

theorem removalsFor_removed (b b2 h : Nat) :
    removalsFor b [Event.removedBoundary b2 h] = if b2 = b then 1 else 0 := by
  by_cases hb : b2 = b
  · simp [removalsFor, List.filter, hb]
  · have hbeq : (b2 == b) = false := beq_eq_false_iff_ne.mpr hb
    simp [removalsFor, List.filter, hbeq, hb]

theorem totalRemovals_sent (i : Nat) (a : String) (q : ℚ) (d : String) :
    totalRemovals [Event.sent i a q d] = 0 := rfl

theorem totalRemovals_keyError (i : Nat) :
    totalRemovals [Event.sentKeyError i] = 0 := rfl

theorem totalRemovals_mined (n : Nat) (a : String) :
    totalRemovals [Event.mined n a] = 0 := rfl

theorem totalRemovals_selfSend : totalRemovals [Event.faucetSelfSend] = 0 := rfl

theorem totalRemovals_removed (b2 h : Nat) :
    totalRemovals [Event.removedBoundary b2 h] = 1 := rfl

theorem markerIdxs_sent (i : Nat) (a : String) (q : ℚ) (d : String) :
    markerIdxs [Event.sent i a q d] = if 40 ≤ i then [i] else [] := by
  by_cases h : 40 ≤ i <;> simp [markerIdxs, List.filterMap, h]

theorem markerIdxs_keyError (i : Nat) : markerIdxs [Event.sentKeyError i] = [] := rfl

theorem markerIdxs_mined (n : Nat) (a : String) : markerIdxs [Event.mined n a] = [] := rfl

theorem markerIdxs_selfSend : markerIdxs [Event.faucetSelfSend] = [] := rfl

theorem markerIdxs_removed (b2 h : Nat) :
    markerIdxs [Event.removedBoundary b2 h] = [] := rfl

/-- The loop invariant of phase 6's boundary bookkeeping, relative to
the initially computed schedule `sched`:  the live schedule is
duplicate-free, contained in `sched`, and contains no boundary already
removed; every boundary was removed at most once, only at a height it
had reached and only if scheduled; the marker address index equals 40
plus the number of markers placed; the marker indices read 40, 41, …;
markers were placed for exactly the first `min 10` removals; and the
test-wallet addresses at indices 40–49 are present. -/
structure BulkInv (sched : List Nat) (g : GenState) (l : BulkLocals) : Prop where
  nodup : l.batch_boundaries.Nodup
  sub : ∀ b ∈ l.batch_boundaries, b ∈ sched
  notRemoved : ∀ b ∈ l.batch_boundaries, removalsFor b g.trace = 0
  atMostOnce : ∀ b, removalsFor b g.trace ≤ 1
  heightOk : ∀ b hgt, Event.removedBoundary b hgt ∈ g.trace → b ≤ hgt ∧ b ∈ sched
  idxEq : l.boundary_addr_index = 40 + (markerIdxs g.trace).length
  markerSeq : markerIdxs g.trace = List.range' 40 (markerIdxs g.trace).length
  markerMin : (markerIdxs g.trace).length = min 10 (totalRemovals g.trace)
  addrs : ∀ i, 40 ≤ i → i < 50 → (g.wallet_addresses.lookup i).isSome = true

/-- `bulkBoundaryStep` written with the branch outside the pair. -/
theorem bulkBoundaryStep_eq (g : GenState) (l : BulkLocals) (b : Nat) :
    bulkBoundaryStep (g, l) b =
      if b ≤ l.current then
        (if l.boundary_addr_index < NUM_ADDRESSES then
          (record_boundary_removal
              (mine_blocks (send_to_wallet g l.boundary_addr_index 0.01
                ("batch boundary near height " ++ toString b)) 1 none)
              b (l.current + 1),
            { l with current := l.current + 1,
                     boundary_addr_index := l.boundary_addr_index + 1,
                     batch_boundaries := l.batch_boundaries.erase b })
        else
          (record_boundary_removal g b l.current,
            { l with batch_boundaries := l.batch_boundaries.erase b }))
      else (g, l) := by
  unfold bulkBoundaryStep
  by_cases h1 : b ≤ l.current
  · by_cases h2 : l.boundary_addr_index < NUM_ADDRESSES <;> simp [h1, h2]
  · simp [h1]

/-- One boundary-processing step preserves the invariant; boundaries
other than the processed one stay in the live schedule; the address
mapping is untouched. -/
theorem bulkBoundaryStep_inv (sched : List Nat) (g : GenState) (l : BulkLocals) (b : Nat)
    (hmem : b ∈ l.batch_boundaries) (hi : BulkInv sched g l) :
    BulkInv sched (bulkBoundaryStep (g, l) b).1 (bulkBoundaryStep (g, l) b).2 ∧
    (∀ c, c ≠ b → c ∈ l.batch_boundaries →
      c ∈ (bulkBoundaryStep (g, l) b).2.batch_boundaries) ∧
    (bulkBoundaryStep (g, l) b).1.wallet_addresses = g.wallet_addresses := by
  rw [bulkBoundaryStep_eq]
  by_cases h1 : b ≤ l.current
  · rw [if_pos h1]
    by_cases h2 : l.boundary_addr_index < NUM_ADDRESSES
    · rw [if_pos h2]
      have h40 : 40 ≤ l.boundary_addr_index := by
        rw [hi.idxEq]; omega
      have h50 : l.boundary_addr_index < 50 := h2
      obtain ⟨a, ha⟩ : ∃ a, g.wallet_addresses.lookup l.boundary_addr_index = some a :=
        Option.isSome_iff_exists.mp (hi.addrs l.boundary_addr_index h40 h50)
      have hsend : send_to_wallet g l.boundary_addr_index 0.01
          ("batch boundary near height " ++ toString b) =
          { g with trace := g.trace ++ [Event.sent l.boundary_addr_index a 0.01 ("batch boundary near height " ++ toString b)], transactions_created := g.transactions_created + 1 } := by
        simp [send_to_wallet, ha]
      refine ⟨⟨?_, ?_, ?_, ?_, ?_, ?_, ?_, ?_, ?_⟩, ?_, ?_⟩
      · exact hi.nodup.erase b
      · intro c hc
        exact hi.sub c (List.mem_of_mem_erase hc)
      · intro c hc
        have hc2 := (hi.nodup.mem_erase_iff).mp hc
        simp only [hsend, record_boundary_removal, mine_blocks, removalsFor_append,
          removalsFor_sent, removalsFor_mined, removalsFor_removed]
        rw [if_neg (fun hbc => hc2.1 hbc.symm)]
        have := hi.notRemoved c hc2.2
        omega
      · intro c
        by_cases hbc : b = c
        · subst hbc
          have h0 := hi.notRemoved b hmem
          simp only [hsend, record_boundary_removal, mine_blocks, removalsFor_append,
            removalsFor_sent, removalsFor_mined, removalsFor_removed]
          simp only [if_true]
          omega
        · have := hi.atMostOnce c
          simp only [hsend, record_boundary_removal, mine_blocks, removalsFor_append,
            removalsFor_sent, removalsFor_mined, removalsFor_removed]
          rw [if_neg hbc]
          omega
      · intro b' h' hmem'
        simp only [hsend, record_boundary_removal, mine_blocks, List.append_assoc,
          List.mem_append, List.mem_singleton] at hmem'
        rcases hmem' with hmem' | hmem' | hmem' | hmem'
        · exact hi.heightOk b' h' hmem'
        · cases hmem'
        · cases hmem'
        · cases hmem'
          exact ⟨by omega, hi.sub b hmem⟩
      · simp only [hsend, record_boundary_removal, mine_blocks, markerIdxs_append,
          markerIdxs_sent, markerIdxs_mined, markerIdxs_removed]
        rw [if_pos h40]
        simp only [List.append_nil, List.length_append, List.length_singleton]
        rw [hi.idxEq]
        omega
      · simp only [hsend, record_boundary_removal, mine_blocks, markerIdxs_append,
          markerIdxs_sent, markerIdxs_mined, markerIdxs_removed]
        rw [if_pos h40]
        simp only [List.append_nil, List.length_append, List.length_singleton]
        rw [List.range'_concat]
        rw [← hi.markerSeq]
        have : l.boundary_addr_index = 40 + 1 * (markerIdxs g.trace).length := by
          rw [hi.idxEq]; omega
        rw [← this]
      · simp only [hsend, record_boundary_removal, mine_blocks, markerIdxs_append,
          markerIdxs_sent, markerIdxs_mined, markerIdxs_removed, totalRemovals_append,
          totalRemovals_sent, totalRemovals_mined, totalRemovals_removed]
        rw [if_pos h40]
        simp only [List.append_nil, List.length_append, List.length_singleton]
        have hmm := hi.markerMin
        have hidx := hi.idxEq
        omega
      · intro i hi1 hi2
        simp only [hsend, record_boundary_removal, mine_blocks]
        exact hi.addrs i hi1 hi2
      · intro c hcb hc
        simp only []
        exact (List.mem_erase_of_ne hcb).mpr hc
      · simp only [hsend, record_boundary_removal, mine_blocks]
    · rw [if_neg h2]
      have h50 : 50 ≤ l.boundary_addr_index := by
        have : ¬ l.boundary_addr_index < 50 := h2
        omega
      refine ⟨⟨?_, ?_, ?_, ?_, ?_, ?_, ?_, ?_, ?_⟩, ?_, ?_⟩
      · exact hi.nodup.erase b
      · intro c hc
        exact hi.sub c (List.mem_of_mem_erase hc)
      · intro c hc
        have hc2 := (hi.nodup.mem_erase_iff).mp hc
        simp only [record_boundary_removal, removalsFor_append, removalsFor_removed]
        rw [if_neg (fun hbc => hc2.1 hbc.symm)]
        have := hi.notRemoved c hc2.2
        omega
      · intro c
        by_cases hbc : b = c
        · subst hbc
          have h0 := hi.notRemoved b hmem
          simp only [record_boundary_removal, removalsFor_append, removalsFor_removed]
          simp only [if_true]
          omega
        · have := hi.atMostOnce c
          simp only [record_boundary_removal, removalsFor_append, removalsFor_removed]
          rw [if_neg hbc]
          omega
      · intro b' h' hmem'
        simp only [record_boundary_removal, List.mem_append, List.mem_singleton] at hmem'
        rcases hmem' with hmem' | hmem'
        · exact hi.heightOk b' h' hmem'
        · cases hmem'
          exact ⟨h1, hi.sub b hmem⟩
      · simp only [record_boundary_removal, markerIdxs_append, markerIdxs_removed,
          List.append_nil]
        exact hi.idxEq
      · simp only [record_boundary_removal, markerIdxs_append, markerIdxs_removed,
          List.append_nil]
        exact hi.markerSeq
      · simp only [record_boundary_removal, markerIdxs_append, markerIdxs_removed,
          totalRemovals_append, totalRemovals_removed, List.append_nil]
        have hmm := hi.markerMin
        have hidx := hi.idxEq
        omega
      · intro i hi1 hi2
        simp only [record_boundary_removal]
        exact hi.addrs i hi1 hi2
      · intro c hcb hc
        simp only []
        exact (List.mem_erase_of_ne hcb).mpr hc
      · simp only [record_boundary_removal]
  · rw [if_neg h1]
    exact ⟨hi, fun c _ hc => hc, rfl⟩

/-- A removal event in a trace makes its removal count positive. -/
theorem removalsFor_pos_of_mem {b h : Nat} {tr : List Event}
    (hmem : Event.removedBoundary b h ∈ tr) : 0 < removalsFor b tr := by
  have hf : Event.removedBoundary b h ∈ tr.filter fun e => match e with
      | Event.removedBoundary b2 _ => b2 == b
      | _ => false := List.mem_filter.mpr ⟨hmem, by simp⟩
  exact List.length_pos.mpr (fun hnil => by simp [hnil] at hf)

/-- Extending the trace by events that remove nothing and place no
marker preserves the invariant. -/
theorem bulkInv_extend (sched : List Nat) (g : GenState) (l : BulkLocals)
    (hi : BulkInv sched g l) (g' : GenState) (ext : List Event)
    (htr : g'.trace = g.trace ++ ext)
    (hwa : g'.wallet_addresses = g.wallet_addresses)
    (hrem : ∀ b, removalsFor b ext = 0)
    (htot : totalRemovals ext = 0)
    (hmk : markerIdxs ext = []) : BulkInv sched g' l := by
  refine ⟨hi.nodup, hi.sub, ?_, ?_, ?_, ?_, ?_, ?_, ?_⟩
  · intro c hc
    rw [htr, removalsFor_append, hrem, hi.notRemoved c hc]
  · intro c
    rw [htr, removalsFor_append, hrem]
    have := hi.atMostOnce c
    omega
  · intro b' h' hmem'
    rw [htr, List.mem_append] at hmem'
    rcases hmem' with hmem' | hmem'
    · exact hi.heightOk b' h' hmem'
    · have := removalsFor_pos_of_mem hmem'
      rw [hrem b'] at this
      omega
  · rw [htr, markerIdxs_append, hmk, List.append_nil]
    exact hi.idxEq
  · rw [htr, markerIdxs_append, hmk, List.append_nil]
    exact hi.markerSeq
  · rw [htr, markerIdxs_append, hmk, totalRemovals_append, htot, List.append_nil]
    simpa using hi.markerMin
  · intro i h1 h2
    rw [hwa]
    exact hi.addrs i h1 h2

@[simp] theorem send_to_wallet_wallet_addresses (g : GenState) (i : Nat) (q : ℚ)
    (d : String) : (send_to_wallet g i q d).wallet_addresses = g.wallet_addresses := by
  unfold send_to_wallet
  cases g.wallet_addresses.lookup i <;> rfl

@[simp] theorem mine_blocks_wallet_addresses (g : GenState) (n : Nat)
    (a : Option String) : (mine_blocks g n a).wallet_addresses = g.wallet_addresses := rfl

@[simp] theorem sendmany_faucet_wallet_addresses (g : GenState)
    (rs : List (String × ℚ)) :
    (sendmany_faucet g rs).wallet_addresses = g.wallet_addresses := rfl

@[simp] theorem spend_from_wallet_wallet_addresses (g : GenState) (q : ℚ) :
    (spend_from_wallet g q).wallet_addresses = g.wallet_addresses := rfl

@[simp] theorem consolidate_wallet_addresses (g : GenState) (n : Nat) :
    (consolidate g n).wallet_addresses = g.wallet_addresses := rfl

@[simp] theorem faucet_self_send_wallet_addresses (g : GenState) :
    (faucet_self_send g).wallet_addresses = g.wallet_addresses := rfl

@[simp] theorem record_boundary_removal_wallet_addresses (g : GenState)
    (b h : Nat) :
    (record_boundary_removal g b h).wallet_addresses = g.wallet_addresses := rfl

@[simp] theorem add_coinbase_rewards_wallet_addresses (g : GenState) (n : Nat) :
    (add_coinbase_rewards g n).wallet_addresses = g.wallet_addresses := rfl

/-- Changing only the loop locals that the invariant does not mention
preserves it. -/
theorem bulkInv_congr_locals (sched : List Nat) (g : GenState) (l l' : BulkLocals)
    (hi : BulkInv sched g l)
    (hb : l'.batch_boundaries = l.batch_boundaries)
    (hx : l'.boundary_addr_index = l.boundary_addr_index) : BulkInv sched g l' := by
  refine ⟨?_, ?_, ?_, hi.atMostOnce, hi.heightOk, ?_, hi.markerSeq, hi.markerMin, hi.addrs⟩
  · rw [hb]; exact hi.nodup
  · rw [hb]; exact hi.sub
  · rw [hb]; exact hi.notRemoved
  · rw [hx]; exact hi.idxEq

theorem bulkInv_mine_blocks (sched : List Nat) (g : GenState) (l : BulkLocals)
    (n : Nat) (a : Option String) (hi : BulkInv sched g l) :
    BulkInv sched (mine_blocks g n a) l :=
  bulkInv_extend sched g l hi _ [Event.mined n (a.getD g.mining_address)]
    rfl rfl (fun _ => rfl) rfl rfl

theorem bulkInv_add_coinbase (sched : List Nat) (g : GenState) (l : BulkLocals)
    (n : Nat) (hi : BulkInv sched g l) :
    BulkInv sched (add_coinbase_rewards g n) l :=
  bulkInv_extend sched g l hi _ [] (by simp [add_coinbase_rewards]) rfl
    (fun _ => rfl) rfl rfl

theorem bulkInv_self_send (sched : List Nat) (g : GenState) (l : BulkLocals)
    (hi : BulkInv sched g l) : BulkInv sched (faucet_self_send g) l :=
  bulkInv_extend sched g l hi _ [Event.faucetSelfSend] rfl rfl (fun _ => rfl) rfl rfl

theorem bulkInv_send_lt40 (sched : List Nat) (g : GenState) (l : BulkLocals)
    (i : Nat) (q : ℚ) (d : String) (hidx : i < 40) (hi : BulkInv sched g l) :
    BulkInv sched (send_to_wallet g i q d) l := by
  unfold send_to_wallet
  cases h : g.wallet_addresses.lookup i with
  | some a =>
    refine bulkInv_extend sched g l hi _ [Event.sent i a q d] rfl rfl
      (fun _ => rfl) rfl ?_
    rw [markerIdxs_sent, if_neg (by omega)]
  | none =>
    exact bulkInv_extend sched g l hi _ [Event.sentKeyError i] rfl rfl
      (fun _ => rfl) rfl rfl

/-- The whole boundary pass preserves the invariant and the address
mapping when run over a duplicate-free snapshot contained in the live
schedule. -/
theorem bulkBoundaryFold_inv (sched : List Nat) :
    ∀ (snap : List Nat) (g : GenState) (l : BulkLocals),
      snap.Nodup → (∀ b ∈ snap, b ∈ l.batch_boundaries) → BulkInv sched g l →
      BulkInv sched (snap.foldl bulkBoundaryStep (g, l)).1
        (snap.foldl bulkBoundaryStep (g, l)).2 ∧
      (snap.foldl bulkBoundaryStep (g, l)).1.wallet_addresses = g.wallet_addresses := by
  intro snap
  induction snap with
  | nil => intro g l _ _ hi; exact ⟨hi, rfl⟩
  | cons b rest ih =>
    intro g l hnd hsub hi
    rw [List.foldl_cons]
    have hnd2 := List.nodup_cons.mp hnd
    have hstep := bulkBoundaryStep_inv sched g l b (hsub b (List.mem_cons_self b rest)) hi
    have hsub2 : ∀ c ∈ rest, c ∈ (bulkBoundaryStep (g, l) b).2.batch_boundaries := by
      intro c hc
      exact hstep.2.1 c (fun hcb => hnd2.1 (hcb ▸ hc)) (hsub c (List.mem_cons_of_mem b hc))
    have hrec := ih (bulkBoundaryStep (g, l) b).1 (bulkBoundaryStep (g, l) b).2
      hnd2.2 hsub2 hstep.1
    exact ⟨hrec.1, hrec.2.trans hstep.2.2⟩

/-- The boundary pass as invoked in `bulkIter`. -/
theorem bulkBoundaryPass_inv (sched : List Nat) (g : GenState) (l : BulkLocals)
    (hi : BulkInv sched g l) :
    BulkInv sched (bulkBoundaryPass g l).1 (bulkBoundaryPass g l).2 ∧
    (bulkBoundaryPass g l).1.wallet_addresses = g.wallet_addresses :=
  bulkBoundaryFold_inv sched l.batch_boundaries g l hi.nodup (fun _ hb => hb) hi

/-- The periodic-send address indices are all below 40. -/
theorem periodic_addresses_getD_lt (n : Nat) :
    periodic_addresses.getD (n % periodic_addresses.length) 0 < 40 := by
  have hlen : periodic_addresses.length = 15 := rfl
  have hb : n % periodic_addresses.length < 15 := by
    rw [hlen]; exact Nat.mod_lt _ (by norm_num)
  have hall : ∀ k, k < 15 → periodic_addresses.getD k 0 < 40 := by decide
  exact hall _ hb

/-- One bulk-loop iteration preserves the invariant and the address
mapping. -/
theorem bulkIter_inv (sched : List Nat) (target : Nat) (oracle : Nat → Bool)
    (g : GenState) (l : BulkLocals) (hi : BulkInv sched g l) :
    BulkInv sched (bulkIter target oracle g l).1 (bulkIter target oracle g l).2 ∧
    (bulkIter target oracle g l).1.wallet_addresses = g.wallet_addresses := by
  simp only [bulkIter]
  split
  · -- mature coinbase branch
    split
    · refine ⟨bulkInv_congr_locals sched _ l _ ?_ rfl rfl, by simp⟩
      exact bulkInv_mine_blocks _ _ _ _ _
        (bulkInv_add_coinbase _ _ _ _ (bulkInv_mine_blocks _ _ _ _ _ hi))
    · refine ⟨bulkInv_congr_locals sched _ l _ ?_ rfl rfl, by simp⟩
      exact bulkInv_add_coinbase _ _ _ _ (bulkInv_mine_blocks _ _ _ _ _ hi)
  · split
    · -- immature coinbase branch
      split
      · refine ⟨bulkInv_congr_locals sched _ l _ ?_ rfl rfl, by simp⟩
        exact bulkInv_mine_blocks _ _ _ _ _
          (bulkInv_add_coinbase _ _ _ _ (bulkInv_mine_blocks _ _ _ _ _ hi))
      · refine ⟨bulkInv_congr_locals sched _ l _ ?_ rfl rfl, by simp⟩
        exact bulkInv_add_coinbase _ _ _ _ (bulkInv_mine_blocks _ _ _ _ _ hi)
    · -- normal branch
      have hpre : BulkInv sched (mine_blocks g (bulkBlocksToMine target l) none)
          { l with current := l.current + bulkBlocksToMine target l } :=
        bulkInv_congr_locals sched _ l _ (bulkInv_mine_blocks _ _ _ _ _ hi) rfl rfl
      have hpass := bulkBoundaryPass_inv sched _ _ hpre
      split
      · -- periodic send taken
        have hidx := periodic_addresses_getD_lt
          (bulkBoundaryPass (mine_blocks g (bulkBlocksToMine target l) none)
            { l with current := l.current + bulkBlocksToMine target l }).2.periodic_counter
        split
        · -- random self-send taken
          refine ⟨bulkInv_congr_locals sched _ _ _
            (bulkInv_mine_blocks _ _ _ _ _ (bulkInv_self_send _ _ _
              (bulkInv_mine_blocks _ _ _ _ _
                (bulkInv_send_lt40 _ _ _ _ _ _ hidx hpass.1)))) rfl rfl, ?_⟩
          simp [hpass.2]
        · refine ⟨bulkInv_congr_locals sched _ _ _
            (bulkInv_mine_blocks _ _ _ _ _
              (bulkInv_send_lt40 _ _ _ _ _ _ hidx hpass.1)) rfl rfl, ?_⟩
          simp [hpass.2]
      · -- periodic send skipped
        split
        · refine ⟨bulkInv_congr_locals sched _ _ _
            (bulkInv_mine_blocks _ _ _ _ _ (bulkInv_self_send _ _ _ hpass.1)) rfl rfl, ?_⟩
          simp [hpass.2]
        · refine ⟨bulkInv_congr_locals sched _ _ _ hpass.1 rfl rfl, ?_⟩
          simp [hpass.2]

/-- The bulk loop preserves the invariant and the address mapping. -/
theorem bulkLoop_inv (sched : List Nat) (target : Nat) (oracle : Nat → Bool) :
    ∀ (fuel : Nat) (g : GenState) (l : BulkLocals), BulkInv sched g l →
      BulkInv sched (bulkLoop target oracle fuel g l).1
        (bulkLoop target oracle fuel g l).2 ∧
      (bulkLoop target oracle fuel g l).1.wallet_addresses = g.wallet_addresses := by
  intro fuel
  induction fuel with
  | zero => intro g l hi; exact ⟨hi, rfl⟩
  | succ n ih =>
    intro g l hi
    rw [bulkLoop]
    split
    · have hit := bulkIter_inv sched target oracle g l hi
      have hrec := ih _ _ hit.1
      exact ⟨hrec.1, hrec.2.trans hit.2⟩
    · exact ⟨hi, rfl⟩

/-- The batch-boundary schedule is duplicate-free. -/
theorem calculate_batch_boundaries_nodup (c t : Nat) :
    (calculate_batch_boundaries c t).Nodup := by
  rw [calculate_batch_boundaries_eq]
  exact (List.nodup_range' _ _).map (fun a b hab => by omega)

/-- The whole bulk phase establishes and preserves the invariant. -/
theorem phase_bulk_inv (target : Nat) (oracle : Nat → Bool) (fuel : Nat)
    (g0 : GenState) (htr : g0.trace = [])
    (haddr : ∀ i, 40 ≤ i → i < 50 → (g0.wallet_addresses.lookup i).isSome = true) :
    BulkInv (calculate_batch_boundaries g0.height target)
      (phase_bulk_generation target oracle fuel g0).1
      (phase_bulk_generation target oracle fuel g0).2 ∧
    (phase_bulk_generation target oracle fuel g0).1.wallet_addresses =
      g0.wallet_addresses := by
  have hinit : BulkInv (calculate_batch_boundaries g0.height target) g0
      { current := g0.height,
        batch_boundaries := calculate_batch_boundaries g0.height target,
        boundary_addr_index := 40, next_periodic_height := g0.height + 1000,
        periodic_counter := 0, rng_calls := 0 } := by
    refine ⟨calculate_batch_boundaries_nodup _ _, fun b hb => hb, ?_, ?_, ?_, ?_, ?_, ?_, haddr⟩
    · intro b _
      rw [htr]
      rfl
    · intro b
      rw [htr]
      exact Nat.zero_le 1
    · intro b' h' hmem'
      rw [htr] at hmem'
      cases hmem'
    · rw [htr]
      rfl
    · rw [htr]
      rfl
    · rw [htr]
      rfl
  simp only [phase_bulk_generation]
  split
  · exact ⟨hinit, rfl⟩
  · have hloop := bulkLoop_inv _ target oracle fuel g0 _ hinit
    split
    · refine ⟨bulkInv_congr_locals _ _ _ _ (bulkInv_mine_blocks _ _ _ _ _ hloop.1) rfl rfl, ?_⟩
      simp [hloop.2]
    · exact hloop

/-- C3 (amended): during bulk generation every scheduled boundary is
removed from the schedule at most once, only at a point where the
tracked current height has reached or passed it, and only if it was
scheduled; the boundary-marker transactions are the sends against
address indices 40, 41, … and are placed for exactly the first
`min 10` boundaries removed — a boundary processed after ten markers
have been placed is removed without a marker, and a boundary never
passed on the normal mining path can remain scheduled when the loop
ends. -/
theorem c3_boundary_markers_amended (target : Nat) (oracle : Nat → Bool)
    (fuel : Nat) (g0 : GenState) (htr : g0.trace = [])
    (haddr : ∀ i, 40 ≤ i → i < 50 → (g0.wallet_addresses.lookup i).isSome = true) :
    (∀ b, removalsFor b (phase_bulk_generation target oracle fuel g0).1.trace ≤ 1) ∧
    (∀ b hgt, Event.removedBoundary b hgt ∈
        (phase_bulk_generation target oracle fuel g0).1.trace →
      b ≤ hgt ∧ b ∈ calculate_batch_boundaries g0.height target) ∧
    markerIdxs (phase_bulk_generation target oracle fuel g0).1.trace =
      List.range' 40
        (min 10 (totalRemovals (phase_bulk_generation target oracle fuel g0).1.trace)) ∧
    (∀ b ∈ (phase_bulk_generation target oracle fuel g0).2.batch_boundaries,
      removalsFor b (phase_bulk_generation target oracle fuel g0).1.trace = 0) := by
  obtain ⟨hi, -⟩ := phase_bulk_inv target oracle fuel g0 htr haddr
  refine ⟨hi.atMostOnce, hi.heightOk, ?_, hi.notRemoved⟩
  rw [← hi.markerMin]
  exact hi.markerSeq

/-- A populated generator state for concrete runs: height 320 (as after
phases 1–5 of a run), all 50 test-wallet addresses stored. -/
def exampleGenState : GenState :=
  { height := 320, wallet_addresses := (List.range 50).map (fun i => (i, "a")),
    mining_address := "m", transactions_created := 0, coinbase_rewards := 0,
    trace := [] }

/-- Witness for C3's amended theorem at the concrete run from height 320
to target 60000. -/
theorem c3_boundary_markers_amended_witness :
    (∀ b, removalsFor b
        (phase_bulk_generation 60000 (fun _ => false) 150 exampleGenState).1.trace ≤ 1) ∧
    (∀ b hgt, Event.removedBoundary b hgt ∈
        (phase_bulk_generation 60000 (fun _ => false) 150 exampleGenState).1.trace →
      b ≤ hgt ∧ b ∈ calculate_batch_boundaries exampleGenState.height 60000) ∧
    markerIdxs (phase_bulk_generation 60000 (fun _ => false) 150 exampleGenState).1.trace =
      List.range' 40 (min 10 (totalRemovals
        (phase_bulk_generation 60000 (fun _ => false) 150 exampleGenState).1.trace)) ∧
    (∀ b ∈ (phase_bulk_generation 60000 (fun _ => false) 150 exampleGenState).2.batch_boundaries,
      removalsFor b
        (phase_bulk_generation 60000 (fun _ => false) 150 exampleGenState).1.trace = 0) :=
  c3_boundary_markers_amended 60000 (fun _ => false) 150 exampleGenState rfl
    (by intro i h1 h2; interval_cases i <;> rfl)

set_option maxRecDepth 100000 in
set_option maxHeartbeats 4000000 in
/-- C3 counterexample: in the complete concrete run from height 320 to
target 60000 (random oracle always false, all RPC calls succeeding), 12
boundaries are scheduled but only 11 are ever removed — boundary 59999
falls in the coinbase windows and is never removed although the loop
finishes at exactly the target height — and only 10 marker transactions
are placed (indices 40–49), so boundary 54999 is removed with no marker
transaction.  This refutes "each scheduled boundary is removed exactly
once" and "no scheduled boundary is skipped without its marker". -/
theorem c3_boundary_markers_counterexample :
    (calculate_batch_boundaries 320 60000).length = 12 ∧
    59999 ∈ calculate_batch_boundaries 320 60000 ∧
    (phase_bulk_generation 60000 (fun _ => false) 150 exampleGenState).2.current = 60000 ∧
    removalsFor 59999
      (phase_bulk_generation 60000 (fun _ => false) 150 exampleGenState).1.trace = 0 ∧
    59999 ∈ (phase_bulk_generation 60000 (fun _ => false) 150 exampleGenState).2.batch_boundaries ∧
    totalRemovals
      (phase_bulk_generation 60000 (fun _ => false) 150 exampleGenState).1.trace = 11 ∧
    markerIdxs
      (phase_bulk_generation 60000 (fun _ => false) 150 exampleGenState).1.trace =
      List.range' 40 10 ∧
    removalsFor 54999
      (phase_bulk_generation 60000 (fun _ => false) 150 exampleGenState).1.trace = 1 := by
  refine ⟨?_, ?_, ?_, ?_, ?_, ?_, ?_, ?_⟩ <;> decide

/-! ### Stability of the address-index mapping (C8) -/

/-- The address mapping equals `m` and every send recorded so far used
the address `m` stores at its index. -/
def AddressesStable (m : List (Nat × String)) (g : GenState) : Prop :=
  g.wallet_addresses = m ∧
  ∀ i a q d, Event.sent i a q d ∈ g.trace → m.lookup i = some a

/-- Trace extensions that add no send — or only sends resolved through
`m` — preserve stability. -/
theorem stable_extend (m : List (Nat × String)) (g g' : GenState) (ext : List Event)
    (h : AddressesStable m g)
    (htr : g'.trace = g.trace ++ ext)
    (hwa : g'.wallet_addresses = g.wallet_addresses)
    (hext : ∀ i a q d, Event.sent i a q d ∈ ext → m.lookup i = some a) :
    AddressesStable m g' := by
  refine ⟨hwa.trans h.1, ?_⟩
  intro i a q d hmem
  rw [htr, List.mem_append] at hmem
  rcases hmem with hmem | hmem
  · exact h.2 i a q d hmem
  · exact hext i a q d hmem

theorem stable_send_to_wallet (m : List (Nat × String)) (g : GenState) (i : Nat)
    (q : ℚ) (d : String) (h : AddressesStable m g) :
    AddressesStable m (send_to_wallet g i q d) := by
  unfold send_to_wallet
  cases hl : g.wallet_addresses.lookup i with
  | some a =>
    refine stable_extend m g _ [Event.sent i a q d] h rfl rfl ?_
    intro i' a' q' d' hmem
    rw [List.mem_singleton, Event.sent.injEq] at hmem
    obtain ⟨rfl, rfl, rfl, rfl⟩ := hmem
    rw [← h.1]
    exact hl
  | none =>
    refine stable_extend m g _ [Event.sentKeyError i] h rfl rfl ?_
    intro i' a' q' d' hmem
    simp at hmem

theorem stable_mine_blocks (m : List (Nat × String)) (g : GenState) (n : Nat)
    (a : Option String) (h : AddressesStable m g) :
    AddressesStable m (mine_blocks g n a) :=
  stable_extend m g _ _ h rfl rfl (by intro i a q d hmem; simp at hmem)

theorem stable_sendmany (m : List (Nat × String)) (g : GenState)
    (rs : List (String × ℚ)) (h : AddressesStable m g) :
    AddressesStable m (sendmany_faucet g rs) :=
  stable_extend m g _ _ h rfl rfl (by intro i a q d hmem; simp at hmem)

theorem stable_spend (m : List (Nat × String)) (g : GenState) (q : ℚ)
    (h : AddressesStable m g) : AddressesStable m (spend_from_wallet g q) :=
  stable_extend m g _ _ h rfl rfl (by intro i a q d hmem; simp at hmem)

theorem stable_consolidate (m : List (Nat × String)) (g : GenState) (n : Nat)
    (h : AddressesStable m g) : AddressesStable m (consolidate g n) :=
  stable_extend m g _ _ h rfl rfl (by intro i a q d hmem; simp at hmem)

theorem stable_self_send (m : List (Nat × String)) (g : GenState)
    (h : AddressesStable m g) : AddressesStable m (faucet_self_send g) :=
  stable_extend m g _ _ h rfl rfl (by intro i a q d hmem; simp at hmem)

theorem stable_record_removal (m : List (Nat × String)) (g : GenState) (b hh : Nat)
    (h : AddressesStable m g) : AddressesStable m (record_boundary_removal g b hh) :=
  stable_extend m g _ _ h rfl rfl (by intro i a q d hmem; simp at hmem)

theorem stable_add_coinbase (m : List (Nat × String)) (g : GenState) (n : Nat)
    (h : AddressesStable m g) : AddressesStable m (add_coinbase_rewards g n) :=
  stable_extend m g _ [] h (by simp [add_coinbase_rewards]) rfl
    (by intro i a q d hmem; simp at hmem)

theorem stable_phase_normal_activity (m : List (Nat × String)) (g : GenState)
    (h : AddressesStable m g) : AddressesStable m (phase_normal_activity g) := by
  unfold phase_normal_activity
  exact stable_mine_blocks m _ _ _ (stable_mine_blocks m _ _ _ (stable_sendmany m _ _
    (stable_mine_blocks m _ _ _ (stable_send_to_wallet m _ _ _ _
    (stable_mine_blocks m _ _ _ (stable_send_to_wallet m _ _ _ _
    (stable_send_to_wallet m _ _ _ _ (stable_mine_blocks m _ _ _
    (stable_send_to_wallet m _ _ _ _ (stable_send_to_wallet m _ _ _ _
    (stable_mine_blocks m _ _ _ (stable_send_to_wallet m _ _ _ _
    (stable_send_to_wallet m _ _ _ _ (stable_mine_blocks m _ _ _
    (stable_send_to_wallet m _ _ _ _ h)))))))))))))))

theorem stable_phase_gap_limit (m : List (Nat × String)) (g : GenState)
    (h : AddressesStable m g) : AddressesStable m (phase_gap_limit_boundary g) := by
  unfold phase_gap_limit_boundary
  exact stable_mine_blocks m _ _ _ (stable_mine_blocks m _ _ _
    (stable_send_to_wallet m _ _ _ _ (stable_mine_blocks m _ _ _
    (stable_send_to_wallet m _ _ _ _ (stable_mine_blocks m _ _ _
    (stable_send_to_wallet m _ _ _ _ h))))))

theorem stable_phase_beyond_gap (m : List (Nat × String)) (g : GenState)
    (h : AddressesStable m g) : AddressesStable m (phase_beyond_gap_limit g) := by
  unfold phase_beyond_gap_limit
  exact stable_mine_blocks m _ _ _ (stable_mine_blocks m _ _ _
    (stable_send_to_wallet m _ _ _ _ (stable_mine_blocks m _ _ _
    (stable_send_to_wallet m _ _ _ _ h))))

theorem stable_consolidation_step (m : List (Nat × String)) (wu : List UtxoEntry)
    (sc : Bool) (g : GenState) (h : AddressesStable m g) :
    AddressesStable m (consolidation_step wu sc g) := by
  unfold consolidation_step
  split
  · split
    · split
      · exact stable_consolidate m _ _ h
      · exact h
    · exact h
  · exact h

theorem stable_phase_variety (m : List (Nat × String)) (wu : List UtxoEntry)
    (sc : Bool) (g : GenState) (h : AddressesStable m g) :
    AddressesStable m (phase_transaction_variety wu sc g) := by
  unfold phase_transaction_variety
  exact stable_mine_blocks m _ _ _ (stable_mine_blocks m _ _ _
    (stable_consolidation_step m wu sc _ (stable_mine_blocks m _ _ _
    (stable_spend m _ _ (stable_mine_blocks m _ _ _
    (stable_send_to_wallet m _ _ _ _ h))))))

theorem stable_bulkBoundaryStep (m : List (Nat × String))
    (s : GenState × BulkLocals) (b : Nat) (h : AddressesStable m s.1) :
    AddressesStable m (bulkBoundaryStep s b).1 := by
  unfold bulkBoundaryStep
  split
  · split
    · exact stable_record_removal m _ _ _
        (stable_mine_blocks m _ _ _ (stable_send_to_wallet m _ _ _ _ h))
    · exact stable_record_removal m _ _ _ h
  · exact h

theorem stable_bulkBoundaryFold (m : List (Nat × String)) :
    ∀ (snap : List Nat) (s : GenState × BulkLocals), AddressesStable m s.1 →
      AddressesStable m (snap.foldl bulkBoundaryStep s).1 := by
  intro snap
  induction snap with
  | nil => intro s h; exact h
  | cons b rest ih =>
    intro s h
    rw [List.foldl_cons]
    exact ih _ (stable_bulkBoundaryStep m s b h)

theorem stable_bulkBoundaryPass (m : List (Nat × String)) (g : GenState)
    (l : BulkLocals) (h : AddressesStable m g) :
    AddressesStable m (bulkBoundaryPass g l).1 :=
  stable_bulkBoundaryFold m l.batch_boundaries (g, l) h

theorem stable_bulkIter (m : List (Nat × String)) (target : Nat)
    (oracle : Nat → Bool) (g : GenState) (l : BulkLocals)
    (h : AddressesStable m g) : AddressesStable m (bulkIter target oracle g l).1 := by
  simp only [bulkIter]
  split
  · split
    · exact stable_mine_blocks m _ _ _
        (stable_add_coinbase m _ _ (stable_mine_blocks m _ _ _ h))
    · exact stable_add_coinbase m _ _ (stable_mine_blocks m _ _ _ h)
  · split
    · split
      · exact stable_mine_blocks m _ _ _
          (stable_add_coinbase m _ _ (stable_mine_blocks m _ _ _ h))
      · exact stable_add_coinbase m _ _ (stable_mine_blocks m _ _ _ h)
    · have hpass := stable_bulkBoundaryPass m
        (mine_blocks g (bulkBlocksToMine target l) none)
        { l with current := l.current + bulkBlocksToMine target l }
        (stable_mine_blocks m _ _ _ h)
      split
      · split
        · exact stable_mine_blocks m _ _ _ (stable_self_send m _
            (stable_mine_blocks m _ _ _ (stable_send_to_wallet m _ _ _ _ hpass)))
        · exact stable_mine_blocks m _ _ _ (stable_send_to_wallet m _ _ _ _ hpass)
      · split
        · exact stable_mine_blocks m _ _ _ (stable_self_send m _ hpass)
        · exact hpass

theorem stable_bulkLoop (m : List (Nat × String)) (target : Nat)
    (oracle : Nat → Bool) :
    ∀ (fuel : Nat) (g : GenState) (l : BulkLocals), AddressesStable m g →
      AddressesStable m (bulkLoop target oracle fuel g l).1 := by
  intro fuel
  induction fuel with
  | zero => intro g l h; exact h
  | succ n ih =>
    intro g l h
    rw [bulkLoop]
    split
    · exact ih _ _ (stable_bulkIter m target oracle g l h)
    · exact h

theorem stable_phase_bulk (m : List (Nat × String)) (target : Nat)
    (oracle : Nat → Bool) (fuel : Nat) (g : GenState)
    (h : AddressesStable m g) :
    AddressesStable m (phase_bulk_generation target oracle fuel g).1 := by
  simp only [phase_bulk_generation]
  split
  · exact h
  · split
    · exact stable_mine_blocks m _ _ _ (stable_bulkLoop m target oracle fuel g _ h)
    · exact stable_bulkLoop m target oracle fuel g _ h

theorem stable_generate_blocks (m : List (Nat × String)) (target : Nat)
    (oracle : Nat → Bool) (wu : List UtxoEntry) (sc : Bool) (fuel : Nat)
    (g : GenState) (h : AddressesStable m g) :
    AddressesStable m (generate_blocks target oracle wu sc fuel g).1 := by
  unfold generate_blocks
  exact stable_phase_bulk m target oracle fuel _
    (stable_phase_variety m wu sc _ (stable_phase_beyond_gap m _
      (stable_phase_gap_limit m _ (stable_phase_normal_activity m _ h))))

/-- `lookup` on the mapping built from sequentially generated keys. -/
theorem lookup_range'_map (f : Nat → String) :
    ∀ (n s i : Nat), s ≤ i → i < s + n →
      ((List.range' s n).map (fun j => (j, f j))).lookup i = some (f i) := by
  intro n
  induction n with
  | zero => intro s i h1 h2; omega
  | succ k ih =>
    intro s i h1 h2
    rw [List.range'_succ, List.map_cons]
    by_cases his : i = s
    · subst his
      simp [List.lookup]
    · have hbeq : (i == s) = false := beq_eq_false_iff_ne.mpr his
      simp only [List.lookup, hbeq]
      exact ih (s + 1) i (by omega) (by omega)

/-- C8: the index-to-address mapping populated during pre-generation by
`_load_addresses` is stable for the entire run — no operation of phases
2–6 mutates it — for every `i < 50` it stores at position `i` exactly
the address the node generated at position `i`, and every send issued
against index `i` during any phase uses exactly the address stored at
position `i` of that mapping. -/
theorem c8_address_mapping_stable (addrOf : Nat → String) (ma : String)
    (h0 target : Nat) (oracle : Nat → Bool) (wu : List UtxoEntry) (sc : Bool)
    (fuel : Nat) :
    (generate_blocks target oracle wu sc fuel
        (load_addresses addrOf (initGenState ma h0))).1.wallet_addresses =
      (load_addresses addrOf (initGenState ma h0)).wallet_addresses ∧
    (∀ i, i < 50 →
      (load_addresses addrOf (initGenState ma h0)).wallet_addresses.lookup i =
        some (addrOf i)) ∧
    (∀ i a q d, Event.sent i a q d ∈ (generate_blocks target oracle wu sc fuel
        (load_addresses addrOf (initGenState ma h0))).1.trace →
      (load_addresses addrOf (initGenState ma h0)).wallet_addresses.lookup i =
        some a) := by
  have hstable : AddressesStable
      ((List.range NUM_ADDRESSES).map (fun i => (i, addrOf i)))
      (load_addresses addrOf (initGenState ma h0)) := by
    constructor
    · rfl
    · intro i a q d hmem
      simp [load_addresses, initGenState] at hmem
  have hfin := stable_generate_blocks _ target oracle wu sc fuel _ hstable
  refine ⟨?_, ?_, ?_⟩
  · rw [hfin.1]
    rfl
  · intro i hi
    show ((List.range NUM_ADDRESSES).map (fun j => (j, addrOf j))).lookup i =
      some (addrOf i)
    rw [List.range_eq_range']
    exact lookup_range'_map addrOf NUM_ADDRESSES 0 i (Nat.zero_le i)
      (by simpa [NUM_ADDRESSES] using hi)
  · intro i a q d hmem
    exact hfin.2 i a q d hmem

/-- Witness for C8 at a concrete run. -/
theorem c8_address_mapping_stable_witness :
    (load_addresses (fun _ => "a") (initGenState "m" 320)).wallet_addresses.lookup 0 =
      some "a" ∧
    (generate_blocks 1000 (fun _ => false) [] false 10
        (load_addresses (fun _ => "a") (initGenState "m" 320))).1.wallet_addresses =
      (load_addresses (fun _ => "a") (initGenState "m" 320)).wallet_addresses :=
  ⟨(c8_address_mapping_stable (fun _ => "a") "m" 320 1000 (fun _ => false) [] false
      10).2.1 0 (by decide),
   (c8_address_mapping_stable (fun _ => "a") "m" 320 1000 (fun _ => false) [] false
      10).1⟩

end RegtestGen
